import Mathlib

/- Shallow embedding of the etabs_text_log core (model.py, diffing.py,
   location.py, aggregate.py, parser.py) of the csi_model_log repository.

   Modelling conventions:
   - Python floats are modelled as exact rationals (arithmetic and
     comparisons are exact; the source performs the same comparisons on
     IEEE doubles).
   - Python dicts are modelled as insertion-ordered association lists;
     Python guarantees key uniqueness, which theorems assume through
     explicit Nodup hypotheses where it matters.
   - Python dynamic values (type Any) are modelled by the PVal type, with
     Python equality semantics (bool is a subclass of int, so True == 1).
   - Stateful in-place mutation (the location tagger) is modelled by pure
     record updates. -/

/-- Python truthiness of a string: the empty string is falsy. -/
def strTruthy (s : String) : Bool := s ≠ ""

/-- Python truthiness of an optional string: None and the empty string are falsy. -/
def optStrTruthy : Option String → Bool
  | none => false
  | some s => strTruthy s

/-- First-match lookup in an association list (models Python dict indexing
    d[k] and d.get(k); Python dicts cannot hold duplicate keys, so on
    well-formed data the first match is the only match). -/
def alookup {κ α : Type} [DecidableEq κ] : List (κ × α) → κ → Option α
  | [], _ => none
  | (k, v) :: rest, key => if k = key then some v else alookup rest key

/-- Python dict assignment d[k] = v: replaces the value at an existing key
    in place (keeping its position) or appends a new binding at the end. -/
def dictInsert {κ α : Type} [DecidableEq κ] : List (κ × α) → κ → α → List (κ × α)
  | [], key, v => [(key, v)]
  | (k, w) :: rest, key, v =>
    if k = key then (key, v) :: rest else (k, w) :: dictInsert rest key v

/- ---------------------------------------------------------------------
   model.py: the typed data model
   --------------------------------------------------------------------- -/

/-- ProgramInfo from model.py. -/
structure ProgramInfo where
  program : String
  version : String
  build : Option String := none
  source_file : Option String := none
deriving DecidableEq

/-- Story from model.py. -/
structure Story where
  name : String
  elevation : ℚ
  height : Option ℚ := none
  is_master_story : Bool := false
  index : Option Int := none
deriving DecidableEq

/-- GridLine from model.py; direction is the literal string X or Y. -/
structure GridLine where
  name : String
  coord : ℚ
  direction : String
deriving DecidableEq

/-- Joint from model.py; story/grid_x/grid_y are filled by location tagging. -/
structure Joint where
  name : String
  x : ℚ
  y : ℚ
  z : ℚ
  story : Option String := none
  grid_x : Option String := none
  grid_y : Option String := none
deriving DecidableEq

/-- Material from model.py. -/
structure Material where
  name : String
  type_ : String
  E : Option ℚ := none
  Fy : Option ℚ := none
  fc : Option ℚ := none
  density : Option ℚ := none
  raw_fields : List (String × String) := []
deriving DecidableEq

/-- FrameSection from model.py. -/
structure FrameSection where
  name : String
  material : String
  shape_type : String
  shape_label : Option String := none
  area : Option ℚ := none
  Ix : Option ℚ := none
  Iy : Option ℚ := none
  J : Option ℚ := none
  raw_fields : List (String × String) := []
deriving DecidableEq

/-- LocationInfo from model.py. -/
structure LocationInfo where
  story : Option String := none
  grid_x : Option String := none
  grid_y : Option String := none
  grid_x_span : Option (String × String) := none
  grid_y_span : Option (String × String) := none
deriving DecidableEq

/-- FrameObject from model.py; the source field named like the Lean keyword
    for sections is rendered section_. -/
structure FrameObject where
  name : String
  joint_i : String
  joint_j : String
  section_ : String
  story : Option String := none
  object_type : Option String := none
  location : LocationInfo := {}
  raw_fields : List (String × String) := []
deriving DecidableEq

/-- FrameAssignment from model.py (keyed by the (frame_name, story) pair). -/
structure FrameAssignment where
  frame_name : String
  story : String
  section_ : String
  propmod_t : Option ℚ := none
  propmod_i22 : Option ℚ := none
  propmod_i33 : Option ℚ := none
  release : Option String := none
  raw_fields : List (String × String) := []
deriving DecidableEq

/-- AreaAssignment from model.py (keyed by the (area_name, story) pair). -/
structure AreaAssignment where
  area_name : String
  story : String
  section_ : String
  diaphragm : Option String := none
  raw_fields : List (String × String) := []
deriving DecidableEq

/-- LoadPattern from model.py. -/
structure LoadPattern where
  name : String
  load_type : String
  self_weight_multiplier : ℚ := 0
  raw_fields : List (String × String) := []
deriving DecidableEq

/-- LoadCase from model.py. -/
structure LoadCase where
  name : String
  case_type : String
  pattern : Option String := none
  is_auto : Bool := false
  raw_fields : List (String × String) := []
deriving DecidableEq

/-- LoadComboTerm from model.py. -/
structure LoadComboTerm where
  name : String
  factor : ℚ
deriving DecidableEq

/-- LoadCombo from model.py. -/
structure LoadCombo where
  name : String
  design_type : Option String := none
  terms : List LoadComboTerm := []
  raw_fields : List (String × String) := []
deriving DecidableEq

/-- EtabsModel from model.py: the snapshot root.  Dict-valued collections
    are insertion-ordered association lists; grids is a plain list as in
    the source. -/
structure EtabsModel where
  program_info : ProgramInfo
  stories : List (String × Story) := []
  grids : List GridLine := []
  joints : List (String × Joint) := []
  frames : List (String × FrameObject) := []
  materials : List (String × Material) := []
  frame_sections : List (String × FrameSection) := []
  load_patterns : List (String × LoadPattern) := []
  load_cases : List (String × LoadCase) := []
  load_combos : List (String × LoadCombo) := []
  frame_assignments : List ((String × String) × FrameAssignment) := []
  area_assignments : List ((String × String) × AreaAssignment) := []
  raw_sections : List (String × List String) := []
deriving DecidableEq

/- ---------------------------------------------------------------------
   PVal: Python dynamic values, and field serialization of the records
   (models getattr walks over dataclass field lists in diffing.py)
   --------------------------------------------------------------------- -/

/-- Python dynamic value as stored in FieldChange.old / FieldChange.new
    and in serialized snapshots.  The only list-valued fields in this data
    model are lists of strings (raw-section lines) and lists of
    LoadComboTerm records, represented by the two specialized list
    constructors. -/
inductive PVal where
  | vNone
  | vBool (b : Bool)
  | vNum (q : ℚ)
  | vStr (s : String)
  | vStrList (l : List String)
  | vTermList (l : List (String × ℚ))
  | vLoc (loc : LocationInfo)
  | vStrDict (d : List (String × String))
deriving DecidableEq

/-- Numeric view of a PVal: models isinstance(v, (int, float)); Python
    bool is a subclass of int, so booleans count as numbers 0 and 1. -/
def pvToNum : PVal → Option ℚ
  | PVal.vNum q => some q
  | PVal.vBool b => some (if b then 1 else 0)
  | _ => none

/-- Python equality on PVal: numeric values (including bool) compare by
    value; everything else compares structurally (which coincides with
    Python equality for the string/None/list/dataclass values that occur
    in this data model). -/
def pvalEq (a b : PVal) : Bool :=
  match pvToNum a, pvToNum b with
  | some x, some y => decide (x = y)
  | _, _ => decide (a = b)

/-- Serialization helper for an optional numeric field. -/
def optNum : Option ℚ → PVal
  | none => PVal.vNone
  | some q => PVal.vNum q

/-- Serialization helper for an optional string field. -/
def optStr : Option String → PVal
  | none => PVal.vNone
  | some s => PVal.vStr s

/-- Serialization helper for an optional integer field. -/
def optInt : Option Int → PVal
  | none => PVal.vNone
  | some i => PVal.vNum i

/-- Field list of a Story in dataclass declaration order. -/
def storyFields (s : Story) : List (String × PVal) :=
  [("name", PVal.vStr s.name), ("elevation", PVal.vNum s.elevation),
   ("height", optNum s.height), ("is_master_story", PVal.vBool s.is_master_story),
   ("index", optInt s.index)]

/-- Field list of a GridLine in dataclass declaration order. -/
def gridFields (g : GridLine) : List (String × PVal) :=
  [("name", PVal.vStr g.name), ("coord", PVal.vNum g.coord),
   ("direction", PVal.vStr g.direction)]

/-- Field list of a Joint in dataclass declaration order. -/
def jointFields (j : Joint) : List (String × PVal) :=
  [("name", PVal.vStr j.name), ("x", PVal.vNum j.x), ("y", PVal.vNum j.y),
   ("z", PVal.vNum j.z), ("story", optStr j.story),
   ("grid_x", optStr j.grid_x), ("grid_y", optStr j.grid_y)]

/-- Field list of a Material in dataclass declaration order. -/
def materialFields (m : Material) : List (String × PVal) :=
  [("name", PVal.vStr m.name), ("type", PVal.vStr m.type_),
   ("E", optNum m.E), ("Fy", optNum m.Fy), ("fc", optNum m.fc),
   ("density", optNum m.density), ("raw_fields", PVal.vStrDict m.raw_fields)]

/-- Field list of a FrameSection in dataclass declaration order. -/
def frameSectionFields (s : FrameSection) : List (String × PVal) :=
  [("name", PVal.vStr s.name), ("material", PVal.vStr s.material),
   ("shape_type", PVal.vStr s.shape_type), ("shape_label", optStr s.shape_label),
   ("area", optNum s.area), ("Ix", optNum s.Ix), ("Iy", optNum s.Iy),
   ("J", optNum s.J), ("raw_fields", PVal.vStrDict s.raw_fields)]

/-- Field list of a FrameObject in dataclass declaration order. -/
def frameObjectFields (f : FrameObject) : List (String × PVal) :=
  [("name", PVal.vStr f.name), ("joint_i", PVal.vStr f.joint_i),
   ("joint_j", PVal.vStr f.joint_j), ("section", PVal.vStr f.section_),
   ("story", optStr f.story), ("object_type", optStr f.object_type),
   ("location", PVal.vLoc f.location), ("raw_fields", PVal.vStrDict f.raw_fields)]

/-- Field list of a FrameAssignment in dataclass declaration order. -/
def frameAssignmentFields (a : FrameAssignment) : List (String × PVal) :=
  [("frame_name", PVal.vStr a.frame_name), ("story", PVal.vStr a.story),
   ("section", PVal.vStr a.section_), ("propmod_t", optNum a.propmod_t),
   ("propmod_i22", optNum a.propmod_i22), ("propmod_i33", optNum a.propmod_i33),
   ("release", optStr a.release), ("raw_fields", PVal.vStrDict a.raw_fields)]

/-- Field list of an AreaAssignment in dataclass declaration order. -/
def areaAssignmentFields (a : AreaAssignment) : List (String × PVal) :=
  [("area_name", PVal.vStr a.area_name), ("story", PVal.vStr a.story),
   ("section", PVal.vStr a.section_), ("diaphragm", optStr a.diaphragm),
   ("raw_fields", PVal.vStrDict a.raw_fields)]

/-- Field list of a LoadPattern in dataclass declaration order. -/
def loadPatternFields (p : LoadPattern) : List (String × PVal) :=
  [("name", PVal.vStr p.name), ("load_type", PVal.vStr p.load_type),
   ("self_weight_multiplier", PVal.vNum p.self_weight_multiplier),
   ("raw_fields", PVal.vStrDict p.raw_fields)]

/-- Field list of a LoadCase in dataclass declaration order. -/
def loadCaseFields (c : LoadCase) : List (String × PVal) :=
  [("name", PVal.vStr c.name), ("case_type", PVal.vStr c.case_type),
   ("pattern", optStr c.pattern), ("is_auto", PVal.vBool c.is_auto),
   ("raw_fields", PVal.vStrDict c.raw_fields)]

/-- Serialization of a LoadComboTerm (nested dataclass inside the terms
    list; structural equality of the pair coincides with Python dataclass
    equality). -/
def termVal (t : LoadComboTerm) : String × ℚ :=
  (t.name, t.factor)

/-- Field list of a LoadCombo in dataclass declaration order. -/
def loadComboFields (c : LoadCombo) : List (String × PVal) :=
  [("name", PVal.vStr c.name), ("design_type", optStr c.design_type),
   ("terms", PVal.vTermList (c.terms.map termVal)),
   ("raw_fields", PVal.vStrDict c.raw_fields)]

/-- Serialization of a raw section value used by the raw-section diff
    records in diffing.py (keys lines and line_count). -/
def rawSectionData (lines : List String) : List (String × PVal) :=
  [("lines", PVal.vStrList lines),
   ("line_count", PVal.vNum lines.length)]

/- ---------------------------------------------------------------------
   diffing.py: raw diff records and the diff engine
   --------------------------------------------------------------------- -/

/-- FieldChange from diffing.py. -/
structure FieldChange where
  field : String
  old : PVal
  new : PVal
deriving DecidableEq

/-- ObjectAdded from diffing.py; new_data is the serialized snapshot of
    the added record. -/
structure ObjectAdded where
  object_type : String
  key : String
  new_data : List (String × PVal)
deriving DecidableEq

/-- ObjectRemoved from diffing.py. -/
structure ObjectRemoved where
  object_type : String
  key : String
  old_data : List (String × PVal)
deriving DecidableEq

/-- ObjectModified from diffing.py. -/
structure ObjectModified where
  object_type : String
  key : String
  changes : List FieldChange
  location : Option LocationInfo := none
deriving DecidableEq

/-- RawDiff from diffing.py. -/
structure RawDiff where
  added : List ObjectAdded
  removed : List ObjectRemoved
  modified : List ObjectModified
deriving DecidableEq

/-- Tolerance for a field name: numeric_tol.get(field_name,
    numeric_tol.get(coord, 1e-3)) from compare_objects in diffing.py. -/
def tolFor (numeric_tol : List (String × ℚ)) (field : String) : ℚ :=
  (alookup numeric_tol field).getD ((alookup numeric_tol "coord").getD (1 / 1000))

/-- Loop body of compare_objects from diffing.py for one declared field:
    skip the raw-field bags, read the new record's value of the same name
    (getattr(new_obj, field_name, None)), skip equal values and
    below-tolerance numeric differences, and otherwise emit the
    FieldChange with the literal old and new values. -/
def compareFieldStep (newF : List (String × PVal)) (numeric_tol : List (String × ℚ))
    (fv : String × PVal) : Option FieldChange :=
  if fv.1 = "raw_fields" ∨ fv.1 = "raw_sections" then none
  else if pvalEq fv.2 ((alookup newF fv.1).getD PVal.vNone) then none
  else
    match pvToNum fv.2, pvToNum ((alookup newF fv.1).getD PVal.vNone) with
    | some a, some b =>
      if |a - b| ≤ tolFor numeric_tol fv.1 then none
      else some ⟨fv.1, fv.2, (alookup newF fv.1).getD PVal.vNone⟩
    | _, _ => some ⟨fv.1, fv.2, (alookup newF fv.1).getD PVal.vNone⟩

/-- compare_objects from diffing.py: walk the old record's declared
    fields (materialized as its serialized field list) and collect the
    surviving field changes. -/
def compare_objects (oldF newF : List (String × PVal))
    (numeric_tol : List (String × ℚ)) : List FieldChange :=
  oldF.filterMap (compareFieldStep newF numeric_tol)

/-- Python str((a, b)) for a pair of strings that contain no quote or
    backslash characters: the serialization used for tuple keys in
    diffing.py. -/
def pyStrOfPair (k : String × String) : String :=
  "('" ++ k.1 ++ "', '" ++ k.2 ++ "')"

/-- diff_dict_collection from diffing.py: objects present only in the new
    dict, in new-dict iteration order, with serialized snapshots.  keyStr
    models the tuple-to-string conversion for composite keys. -/
def diff_dict_collection {κ α : Type} [DecidableEq κ] (object_type : String)
    (old_dict new_dict : List (κ × α)) (keyStr : κ → String)
    (ser : α → List (String × PVal)) : List ObjectAdded :=
  new_dict.filterMap fun kv =>
    if (alookup old_dict kv.1).isNone then
      some ⟨object_type, keyStr kv.1, ser kv.2⟩
    else none

/-- diff_dict_collection_removed from diffing.py. -/
def diff_dict_collection_removed {κ α : Type} [DecidableEq κ] (object_type : String)
    (old_dict new_dict : List (κ × α)) (keyStr : κ → String)
    (ser : α → List (String × PVal)) : List ObjectRemoved :=
  old_dict.filterMap fun kv =>
    if (alookup new_dict kv.1).isNone then
      some ⟨object_type, keyStr kv.1, ser kv.2⟩
    else none

/-- diff_dict_collection_modified from diffing.py.  getLoc models the
    include_location flag together with the hasattr dispatch: frames pass
    their own LocationInfo, joints pass LocationInfo(story=...), all other
    collections pass None. -/
def diff_dict_collection_modified {κ α : Type} [DecidableEq κ] (object_type : String)
    (old_dict new_dict : List (κ × α)) (numeric_tol : List (String × ℚ))
    (keyStr : κ → String) (ser : α → List (String × PVal))
    (getLoc : α → Option LocationInfo) : List ObjectModified :=
  old_dict.filterMap fun kv =>
    match alookup new_dict kv.1 with
    | none => none
    | some new_obj =>
      let changes := compare_objects (ser kv.2) (ser new_obj) numeric_tol
      if changes.isEmpty then none
      else some ⟨object_type, keyStr kv.1, changes, getLoc new_obj⟩

/-- Name-keyed view of a grid list (the temporary dict built by the
    list-collection diffs in diffing.py; last write wins on duplicates). -/
def gridsByName (l : List GridLine) : List (String × GridLine) :=
  l.foldl (fun d g => dictInsert d g.name g) []

/-- diff_list_collection from diffing.py (grids): objects of the new list
    whose name is absent from the old list's name-keyed view. -/
def diff_list_collection (object_type : String)
    (old_list new_list : List GridLine) : List ObjectAdded :=
  let old_dict := gridsByName old_list
  new_list.filterMap fun g =>
    if (alookup old_dict g.name).isNone then
      some ⟨object_type, g.name, gridFields g⟩
    else none

/-- diff_list_collection_removed from diffing.py (grids). -/
def diff_list_collection_removed (object_type : String)
    (old_list new_list : List GridLine) : List ObjectRemoved :=
  let old_dict := gridsByName old_list
  let new_dict := gridsByName new_list
  old_dict.filterMap fun kv =>
    if (alookup new_dict kv.1).isNone then
      some ⟨object_type, kv.1, gridFields kv.2⟩
    else none

/-- Equality of the line sets of two raw sections (Python set(old) ==
    set(new) in diff_raw_sections_modified). -/
def lineSetEq (a b : List String) : Bool :=
  a.all (fun l => decide (l ∈ b)) && b.all (fun l => decide (l ∈ a))

/-- Duplicate removal keeping first occurrences (materializes the Python
    set differences of diff_raw_sections_modified as lists; the source's
    set iteration order is unspecified, insertion order is used here). -/
def dedupFirst : List String → List String
  | [] => []
  | x :: rest => x :: dedupFirst (rest.filter (fun y => y ≠ x))
termination_by l => l.length
decreasing_by
  simp only [List.length_cons]
  exact Nat.lt_succ_of_le (List.length_filter_le _ _)

/-- diff_raw_sections from diffing.py. -/
def diff_raw_sections (old_sections new_sections : List (String × List String)) :
    List ObjectAdded :=
  diff_dict_collection "raw_section" old_sections new_sections id rawSectionData

/-- diff_raw_sections_removed from diffing.py. -/
def diff_raw_sections_removed (old_sections new_sections : List (String × List String)) :
    List ObjectRemoved :=
  diff_dict_collection_removed "raw_section" old_sections new_sections id rawSectionData

/-- diff_raw_sections_modified from diffing.py: sections present in both
    maps whose line sets differ produce lines_added / lines_removed /
    line_count field changes. -/
def diff_raw_sections_modified (old_sections new_sections : List (String × List String)) :
    List ObjectModified :=
  old_sections.filterMap fun kv =>
    match alookup new_sections kv.1 with
    | none => none
    | some new_lines =>
      let old_lines := kv.2
      if lineSetEq old_lines new_lines then none
      else
        let added_lines := dedupFirst (new_lines.filter (fun l => decide (l ∉ old_lines)))
        let removed_lines := dedupFirst (old_lines.filter (fun l => decide (l ∉ new_lines)))
        let changes₁ : List FieldChange :=
          if added_lines.isEmpty then []
          else [⟨"lines_added", PVal.vNone, PVal.vStrList added_lines⟩]
        let changes₂ : List FieldChange :=
          if removed_lines.isEmpty then []
          else [⟨"lines_removed", PVal.vStrList removed_lines, PVal.vNone⟩]
        let changes₃ : List FieldChange :=
          if old_lines.length ≠ new_lines.length then
            [⟨"line_count", PVal.vNum old_lines.length, PVal.vNum new_lines.length⟩]
          else []
        let changes := changes₁ ++ changes₂ ++ changes₃
        if changes.isEmpty then none
        else some ⟨"raw_section", kv.1, changes, none⟩

/-- Location helper for modified joints: diffing.py builds
    LocationInfo(story=new_obj.story) for records that have a story but no
    location attribute. -/
def jointLoc (j : Joint) : Option LocationInfo :=
  some { story := j.story }

/-- Location helper for modified frames: the frame's own LocationInfo. -/
def frameLoc (f : FrameObject) : Option LocationInfo :=
  some f.location

/-- Default numeric tolerances of diff_models in diffing.py. -/
def defaultNumericTol : List (String × ℚ) :=
  [("elevation", 1 / 1000), ("coord", 1 / 1000), ("E", 1000), ("Fy", 100), ("fc", 10)]

/-- diff_models from diffing.py: compare two snapshots collection by
    collection and concatenate the added / removed / modified records in
    source order. -/
def diff_models (old new : EtabsModel)
    (numeric_tol? : Option (List (String × ℚ)) := none) : RawDiff :=
  let numeric_tol := numeric_tol?.getD defaultNumericTol
  let noLoc : ∀ {α : Type}, α → Option LocationInfo := fun _ => none
  let added : List ObjectAdded :=
    diff_dict_collection "story" old.stories new.stories id storyFields ++
    diff_list_collection "grid" old.grids new.grids ++
    diff_dict_collection "joint" old.joints new.joints id jointFields ++
    diff_dict_collection "frame" old.frames new.frames id frameObjectFields ++
    diff_dict_collection "material" old.materials new.materials id materialFields ++
    diff_dict_collection "frame_section" old.frame_sections new.frame_sections id frameSectionFields ++
    diff_dict_collection "load_pattern" old.load_patterns new.load_patterns id loadPatternFields ++
    diff_dict_collection "load_case" old.load_cases new.load_cases id loadCaseFields ++
    diff_dict_collection "load_combo" old.load_combos new.load_combos id loadComboFields ++
    diff_dict_collection "frame_assignment" old.frame_assignments new.frame_assignments pyStrOfPair frameAssignmentFields ++
    diff_dict_collection "area_assignment" old.area_assignments new.area_assignments pyStrOfPair areaAssignmentFields ++
    diff_raw_sections old.raw_sections new.raw_sections
  let removed : List ObjectRemoved :=
    diff_dict_collection_removed "story" old.stories new.stories id storyFields ++
    diff_list_collection_removed "grid" old.grids new.grids ++
    diff_dict_collection_removed "joint" old.joints new.joints id jointFields ++
    diff_dict_collection_removed "frame" old.frames new.frames id frameObjectFields ++
    diff_dict_collection_removed "material" old.materials new.materials id materialFields ++
    diff_dict_collection_removed "frame_section" old.frame_sections new.frame_sections id frameSectionFields ++
    diff_dict_collection_removed "load_pattern" old.load_patterns new.load_patterns id loadPatternFields ++
    diff_dict_collection_removed "load_case" old.load_cases new.load_cases id loadCaseFields ++
    diff_dict_collection_removed "load_combo" old.load_combos new.load_combos id loadComboFields ++
    diff_dict_collection_removed "frame_assignment" old.frame_assignments new.frame_assignments pyStrOfPair frameAssignmentFields ++
    diff_dict_collection_removed "area_assignment" old.area_assignments new.area_assignments pyStrOfPair areaAssignmentFields ++
    diff_raw_sections_removed old.raw_sections new.raw_sections
  let modified : List ObjectModified :=
    diff_dict_collection_modified "story" old.stories new.stories numeric_tol id storyFields noLoc ++
    diff_dict_collection_modified "joint" old.joints new.joints numeric_tol id jointFields jointLoc ++
    diff_dict_collection_modified "frame" old.frames new.frames numeric_tol id frameObjectFields frameLoc ++
    diff_dict_collection_modified "material" old.materials new.materials numeric_tol id materialFields noLoc ++
    diff_dict_collection_modified "frame_section" old.frame_sections new.frame_sections numeric_tol id frameSectionFields noLoc ++
    diff_dict_collection_modified "load_pattern" old.load_patterns new.load_patterns numeric_tol id loadPatternFields noLoc ++
    diff_dict_collection_modified "load_case" old.load_cases new.load_cases numeric_tol id loadCaseFields noLoc ++
    diff_dict_collection_modified "load_combo" old.load_combos new.load_combos numeric_tol id loadComboFields noLoc ++
    diff_dict_collection_modified "frame_assignment" old.frame_assignments new.frame_assignments numeric_tol pyStrOfPair frameAssignmentFields noLoc ++
    diff_dict_collection_modified "area_assignment" old.area_assignments new.area_assignments numeric_tol pyStrOfPair areaAssignmentFields noLoc ++
    diff_raw_sections_modified old.raw_sections new.raw_sections
  ⟨added, removed, modified⟩

/- ---------------------------------------------------------------------
   String and character utilities shared by location.py and parser.py
   (Python substring tests, case folding, tokenization)
   --------------------------------------------------------------------- -/

/-- Prefix test on character lists (first argument is the pattern). -/
def charsPrefix : List Char → List Char → Bool
  | [], _ => true
  | _ :: _, [] => false
  | p :: ps, c :: cs => p == c && charsPrefix ps cs

/-- Substring scan used by strContains. -/
def charsContainsAux (pat : List Char) : List Char → Bool
  | [] => pat.isEmpty
  | c :: rest => charsPrefix pat (c :: rest) || charsContainsAux pat rest

/-- Python substring test: pat in hay. -/
def strContains (hay pat : String) : Bool :=
  charsContainsAux pat.data hay.data

/-- Characters split at every separator satisfying p, keeping empty
    fields (the splitting core of Python str.split and splitlines). -/
def charsSplit (p : Char → Bool) : List Char → List (List Char)
  | [] => [[]]
  | c :: rest =>
    match charsSplit p rest with
    | [] => if p c then [[], [c]] else [[c]]
    | t :: ts => if p c then [] :: t :: ts else (c :: t) :: ts

/-- Python str.strip(): drop leading and trailing whitespace. -/
def pyStrip (s : String) : String :=
  String.mk (((s.data.dropWhile Char.isWhitespace).reverse.dropWhile
    Char.isWhitespace).reverse)

/-- Python str.upper() (ASCII case folding). -/
def pyUpper (s : String) : String :=
  String.mk (s.data.map Char.toUpper)

/-- Python s.startswith(p). -/
def pyStartsWith (s p : String) : Bool :=
  charsPrefix p.data s.data

/-- Python s[n:] on strings. -/
def pyDrop (s : String) (n : Nat) : String :=
  String.mk (s.data.drop n)

/-- Python text.splitlines() with newline as the only terminator, the
    line iteration of parse_sections_from_text. -/
def pyLines (s : String) : List String :=
  (charsSplit (fun c => c == '\n') s.data).map String.mk

/-- Python tokenization s.split() on whitespace runs, dropping empties. -/
def pySplitWs (s : String) : List String :=
  ((charsSplit Char.isWhitespace s.data).map String.mk).filter (fun t => t ≠ "")

/-- Python expression opt or dflt on strings: the option's value when it
    is truthy (present and non-empty), otherwise the default. -/
def pyOrStr (o : Option String) (dflt : String) : String :=
  match o with
  | some s => if s = "" then dflt else s
  | none => dflt

/- ---------------------------------------------------------------------
   location.py: story/grid tagging and frame classification
   --------------------------------------------------------------------- -/

/-- Running-best accumulator of the loops in find_story_by_elevation and
    find_grid_line: min_diff starts at infinity and is replaced only on a
    strict improvement, so the first-seen name wins ties. -/
def runBest (l : List (String × ℚ)) : Option (String × ℚ) :=
  l.foldl (fun acc nd =>
    match acc with
    | none => some nd
    | some best => if nd.2 < best.2 then some nd else some best) none

/-- find_story_by_elevation from location.py.  Both the branch inside the
    tolerance test and the fall-through return best_match, so no story is
    ever rejected; the conditional is kept to mirror the source. -/
def find_story_by_elevation (z : ℚ) (stories : List (String × Story)) (tol : ℚ) :
    Option String :=
  match runBest (stories.map fun kv => (kv.1, |z - kv.2.elevation|)) with
  | none => none
  | some (best_match, min_diff) =>
    if strTruthy best_match && decide (min_diff ≤ tol * 100) then some best_match
    else some best_match

/-- find_grid_line from location.py: the in-loop direction test is
    rendered as a filter; a falsy (empty) best name or an out-of-tolerance
    minimum yields None. -/
def find_grid_line (coord : ℚ) (grids : List GridLine) (direction : String)
    (coord_tol : ℚ) : Option String :=
  match runBest ((grids.filter fun g => g.direction = direction).map
      fun g => (g.name, |coord - g.coord|)) with
  | none => none
  | some (best_match, min_diff) =>
    if strTruthy best_match && decide (min_diff ≤ coord_tol) then some best_match
    else none

/-- tag_joint_location from location.py (reads only the stories and grids
    of the model, which the tagging pass never modifies). -/
def tag_joint_location (j : Joint) (model : EtabsModel) (coord_tol : ℚ) : Joint :=
  { j with
    story := find_story_by_elevation j.z model.stories coord_tol,
    grid_x := find_grid_line j.x model.grids "X" coord_tol,
    grid_y := find_grid_line j.y model.grids "Y" coord_tol }

/-- Story chosen by tag_frame_location in location.py (lines 83-97): a
    result of some s means the source assigns story s to the frame and
    its location; none means the frame keeps its current story. -/
def frameStoryUpdate (model : EtabsModel) (joint_i joint_j : Joint) : Option String :=
  if optStrTruthy joint_i.story && optStrTruthy joint_j.story then
    if joint_i.story = joint_j.story then joint_i.story
    else
      match joint_i.story, joint_j.story with
      | some si, some sj =>
        match alookup model.stories si, alookup model.stories sj with
        | some elev_i, some elev_j =>
          some (if elev_i.elevation ≤ elev_j.elevation then si else sj)
        | _, _ => none
      | _, _ => none
  else none

/-- In-place updates tag_frame_location applies once both endpoint joints
    resolved: conditional story and grid assignments; a failing condition
    leaves the corresponding field unchanged. -/
def applyFrameLocUpdates (model : EtabsModel) (joint_i joint_j : Joint)
    (f : FrameObject) : FrameObject :=
  { f with
    story := match frameStoryUpdate model joint_i joint_j with
      | some s => some s
      | none => f.story,
    location :=
      { f.location with
        story := match frameStoryUpdate model joint_i joint_j with
          | some s => some s
          | none => f.location.story,
        grid_x :=
          if optStrTruthy joint_i.grid_x && decide (joint_i.grid_x = joint_j.grid_x) then
            joint_i.grid_x
          else f.location.grid_x,
        grid_y :=
          if optStrTruthy joint_i.grid_y && decide (joint_i.grid_y = joint_j.grid_y) then
            joint_i.grid_y
          else f.location.grid_y,
        grid_x_span :=
          match joint_i.grid_x, joint_j.grid_x with
          | some gi, some gj =>
            if gi ≠ "" && gj ≠ "" && gi ≠ gj then some (gi, gj) else f.location.grid_x_span
          | _, _ => f.location.grid_x_span,
        grid_y_span :=
          match joint_i.grid_y, joint_j.grid_y with
          | some gi, some gj =>
            if gi ≠ "" && gj ≠ "" && gi ≠ gj then some (gi, gj) else f.location.grid_y_span
          | _, _ => f.location.grid_y_span } }

/-- tag_frame_location from location.py: look up both endpoint joints; a
    missing endpoint leaves the frame untouched.  coord_tol is accepted
    but unused, as in the source. -/
def tag_frame_location (f : FrameObject) (model : EtabsModel) (coord_tol : ℚ) :
    FrameObject :=
  match alookup model.joints f.joint_i, alookup model.joints f.joint_j with
  | some joint_i, some joint_j => applyFrameLocUpdates model joint_i joint_j f
  | _, _ => f

/-- classify_frame_object from location.py.  The source compares the
    normalized components dz/length etc. against 0.7, 0.3 and length
    against 1e-6; with every quantity nonnegative these comparisons are
    equivalent to the squared comparisons written here, which keeps the
    embedding inside exact rational arithmetic. -/
def classify_frame_object (f : FrameObject) (model : EtabsModel) : FrameObject :=
  match alookup model.joints f.joint_i, alookup model.joints f.joint_j with
  | some joint_i, some joint_j =>
    let dx := |joint_j.x - joint_i.x|
    let dy := |joint_j.y - joint_i.y|
    let dz := |joint_j.z - joint_i.z|
    let lengthSq := dx ^ 2 + dy ^ 2 + dz ^ 2
    if lengthSq < (1 / 1000000 : ℚ) ^ 2 then { f with object_type := some "frame" }
    else
      let geo : String :=
        if dz ^ 2 * 100 > lengthSq * 49 then "column"
        else if dz ^ 2 * 100 < lengthSq * 9 ∧
            (dx ^ 2 * 100 > lengthSq * 49 ∨ dy ^ 2 * 100 > lengthSq * 49) then "beam"
        else "brace"
      let typed : String :=
        match alookup model.frame_sections f.section_ with
        | none => geo
        | some sec =>
          let u := pyUpper sec.name
          if strContains u "COLUMN" || strContains u "COL" then "column"
          else if strContains u "BEAM" || strContains u "BM" then "beam"
          else if strContains u "BRACE" then "brace"
          else geo
      { f with object_type := some typed }
  | _, _ => { f with object_type := some "frame" }

/-- attach_story_and_grid_tags from location.py as a pure function: first
    every joint is tagged (reading only stories and grids), then every
    frame is located and classified against the joint-tagged model. -/
def attach_story_and_grid_tags (model : EtabsModel) (coord_tol : ℚ := 1 / 1000) :
    EtabsModel :=
  let model₁ :=
    { model with joints := model.joints.map fun (kv : String × Joint) =>
        (kv.1, tag_joint_location kv.2 model coord_tol) }
  { model₁ with frames := model₁.frames.map fun (kv : String × FrameObject) =>
      (kv.1, classify_frame_object (tag_frame_location kv.2 model₁ coord_tol) model₁) }

/- ---------------------------------------------------------------------
   aggregate.py: section-swap clustering
   --------------------------------------------------------------------- -/

/-- Grid region of a SectionSwapCluster: during accumulation the two
    lists are insertion-ordered sets (Python set); materialization turns
    them into sorted lists. -/
structure GridRegion where
  grid_x : List String
  grid_y : List String
deriving DecidableEq

/-- SectionSwapCluster from aggregate.py.  old_section / new_section hold
    the FieldChange values (typed Any in the source even though the
    dataclass declares str). -/
structure SectionSwapCluster where
  object_type : String
  story : Option String
  old_section : PVal
  new_section : PVal
  count : Nat
  example_objects : List String
  grid_region : Option GridRegion
deriving DecidableEq

/-- Rendering of a PVal inside the cluster-key f-string.  Section values
    in this data model are always strings; the container renderings are
    deterministic placeholders for Python's repr, which these claims never
    exercise. -/
def pyFStr : PVal → String
  | PVal.vStr s => s
  | PVal.vNone => "None"
  | PVal.vBool b => if b then "True" else "False"
  | PVal.vNum q => toString q
  | PVal.vStrList _ => "[list]"
  | PVal.vTermList _ => "[list]"
  | PVal.vLoc _ => "[location]"
  | PVal.vStrDict _ => "[dict]"

/-- Cluster key of aggregate.py: the f-string
    object_type:story:old_section:new_section (a None story renders as
    the text None). -/
def clusterKey (object_type : String) (story : Option String)
    (old_section new_section : PVal) : String :=
  object_type ++ ":" ++ (match story with | none => "None" | some s => s) ++ ":" ++
    pyFStr old_section ++ ":" ++ pyFStr new_section

/-- Skip of leading Python whitespace. -/
def skipWs : List Char → List Char
  | [] => []
  | c :: rest => if c.isWhitespace then skipWs rest else c :: rest

/-- Scan up to (and consuming) the next occurrence of the character q,
    returning the content before it and the remainder after it. -/
def scanUntilChar (q : Char) : List Char → Option (List Char × List Char)
  | [] => none
  | c :: rest =>
    if c = q then some ([], rest)
    else
      match scanUntilChar q rest with
      | some (content, rem) => some (c :: content, rem)
      | none => none

/-- Parse of a Python string literal quoted with either quote character
    (no escape sequences: the tuple keys produced by diffing.py contain
    none for names without quote or backslash characters). -/
def parsePyStrLit : List Char → Option (String × List Char)
  | [] => none
  | c :: rest =>
    if c = '\'' ∨ c = '"' then
      match scanUntilChar c rest with
      | some (content, rem) => some (String.mk content, rem)
      | none => none
    else none

/-- Tail of a two-string tuple literal after the second string: an
    optional trailing comma, the closing parenthesis, then only
    whitespace. -/
def parseTupleClose (cs : List Char) : Bool :=
  match skipWs cs with
  | ')' :: rest => (skipWs rest).isEmpty
  | ',' :: rest =>
    match skipWs rest with
    | ')' :: rest₂ => (skipWs rest₂).isEmpty
    | _ => false
  | _ => false

/-- Restricted model of ast.literal_eval for the keys reaching the
    section-swap aggregation: parses a Python literal of the form
    (str, str); any other input yields none, which the caller skips just
    as the source skips ValueError/SyntaxError and non-2-tuple values. -/
def parseKeyTuple (s : String) : Option (String × String) :=
  match skipWs s.data with
  | '(' :: rest =>
    match parsePyStrLit (skipWs rest) with
    | none => none
    | some (a, rest₁) =>
      match skipWs rest₁ with
      | ',' :: rest₂ =>
        match parsePyStrLit (skipWs rest₂) with
        | none => none
        | some (b, rest₃) => if parseTupleClose rest₃ then some (a, b) else none
      | _ => none
  | _ => none

/-- One record's contribution to the section-swap clustering (the values
    the two branches of aggregate_section_swaps compute before touching
    the cluster map). -/
structure SwapContribution where
  key : String
  object_type : String
  story : Option String
  old_section : PVal
  new_section : PVal
  example_object : String
  grids : Option (String × String)
deriving DecidableEq

/-- First change whose field is section. -/
def findSectionChange (changes : List FieldChange) : Option FieldChange :=
  changes.find? fun c => c.field = "section"

/-- Python expression frame.object_type or "frame". -/
def objectTypeOr (f : FrameObject) : String :=
  pyOrStr f.object_type "frame"

/-- Python expression story or frame.story or (frame.location.story if
    frame.location else None): the first truthy value, else the final
    fallback.  frame.location is always a LocationInfo instance, hence
    truthy. -/
def effectiveStoryAssign (story : String) (f : FrameObject) : Option String :=
  if strTruthy story then some story
  else if optStrTruthy f.story then f.story
  else f.location.story

/-- Python expression frame.story or (frame.location.story if
    frame.location else None) used by the frame branch. -/
def effectiveStoryFrame (f : FrameObject) : Option String :=
  if optStrTruthy f.story then f.story
  else f.location.story

/-- Grid tags recorded by one contributing record: aggregate.py adds to
    the grid sets only when the frame's location carries truthy grid tags
    on both axes. -/
def contributionGrids (f : FrameObject) : Option (String × String) :=
  match f.location.grid_x, f.location.grid_y with
  | some gx, some gy => if gx ≠ "" && gy ≠ "" then some (gx, gy) else none
  | _, _ => none

/-- Contribution extracted from one modified record by the two branches
    of aggregate_section_swaps in aggregate.py (the branches differ only
    in how the frame name and story are obtained; diff keys are strings,
    so the isinstance-tuple arm of the source cannot fire). -/
def swapContribution (new : EtabsModel) (mod : ObjectModified) :
    Option SwapContribution :=
  if mod.object_type = "frame_assignment" then
    match findSectionChange mod.changes with
    | none => none
    | some ch =>
      if pyStartsWith mod.key "(" then
        match parseKeyTuple mod.key with
        | none => none
        | some (frame_name, story) =>
          match alookup new.frames frame_name with
          | none => none
          | some frame =>
            let object_type := objectTypeOr frame
            let story' := effectiveStoryAssign story frame
            some ⟨clusterKey object_type story' ch.old ch.new, object_type, story',
              ch.old, ch.new, frame_name, contributionGrids frame⟩
      else none
  else if mod.object_type = "frame" then
    match findSectionChange mod.changes with
    | none => none
    | some ch =>
      match alookup new.frames mod.key with
      | none => none
      | some frame =>
        let object_type := objectTypeOr frame
        let story' := effectiveStoryFrame frame
        some ⟨clusterKey object_type story' ch.old ch.new, object_type, story',
          ch.old, ch.new, mod.key, contributionGrids frame⟩
  else none

/-- Set insertion preserving insertion order (Python set.add; the
    source's set iteration order is irrelevant after sorting). -/
def setInsert (l : List String) (x : String) : List String :=
  if x ∈ l then l else l ++ [x]

/-- Application of one contribution to the cluster map: create-on-miss,
    bump the count, append an example while fewer than five are stored,
    and extend the grid sets when the contribution carries grid tags. -/
def applyContribution (clusters : List (String × SectionSwapCluster))
    (c : SwapContribution) : List (String × SectionSwapCluster) :=
  let base : SectionSwapCluster :=
    match alookup clusters c.key with
    | some cl => cl
    | none => ⟨c.object_type, c.story, c.old_section, c.new_section, 0, [], none⟩
  let cl₁ := { base with count := base.count + 1 }
  let cl₂ := { cl₁ with example_objects :=
    if cl₁.example_objects.length < 5 then cl₁.example_objects ++ [c.example_object]
    else cl₁.example_objects }
  let cl₃ := { cl₂ with grid_region :=
    match c.grids with
    | none => cl₂.grid_region
    | some (gx, gy) =>
      match cl₂.grid_region with
      | none => some ⟨setInsert [] gx, setInsert [] gy⟩
      | some gr => some ⟨setInsert gr.grid_x gx, setInsert gr.grid_y gy⟩ }
  dictInsert clusters c.key cl₃

/-- Sorted-list materialization of a grid set (Python sorted(list(s))
    under the string linear order). -/
def sortStr (l : List String) : List String :=
  l.insertionSort (fun a b => a ≤ b)

/-- Final conversion of a cluster's grid sets to sorted lists. -/
def materializeCluster (cl : SectionSwapCluster) : SectionSwapCluster :=
  match cl.grid_region with
  | none => cl
  | some gr => { cl with grid_region := some ⟨sortStr gr.grid_x, sortStr gr.grid_y⟩ }

/-- Loop body of aggregate_section_swaps from aggregate.py: a record
    contributing nothing leaves the cluster map unchanged. -/
def aggStep (new : EtabsModel) (acc : List (String × SectionSwapCluster))
    (mod : ObjectModified) : List (String × SectionSwapCluster) :=
  match swapContribution new mod with
  | none => acc
  | some c => applyContribution acc c

/-- aggregate_section_swaps from aggregate.py: one pass over the modified
    records accumulating clusters keyed by the cluster-key string, then
    materialization of the grid sets; the old snapshot parameter is
    accepted and unused as in the source. -/
def aggregate_section_swaps (raw_diff : RawDiff) (old new : EtabsModel) :
    List SectionSwapCluster :=
  let clusters := raw_diff.modified.foldl (aggStep new) []
  clusters.map fun kv => materializeCluster kv.2

/- ---------------------------------------------------------------------
   parser.py: field extractors (regex helpers modelled as scanners)
   --------------------------------------------------------------------- -/

/-- First double-quoted region of the input: the content together with
    the remainder after the closing quote. -/
def firstQuoted : List Char → Option (String × List Char)
  | [] => none
  | c :: rest =>
    if c = '"' then
      match scanUntilChar '"' rest with
      | some (content, rem) => some (String.mk content, rem)
      | none => none
    else firstQuoted rest

/-- extract_quoted_string from parser.py: the first complete
    double-quoted substring. -/
def extract_quoted_string (s : String) : Option String :=
  (firstQuoted s.data).map Prod.fst

/-- Worker of findAllQuoted; each successful match consumes at least two
    characters, so a fuel of the input length suffices exactly. -/
def findAllQuotedAux : Nat → List Char → List String
  | 0, _ => []
  | fuel + 1, cs =>
    match firstQuoted cs with
    | none => []
    | some (s, rest) => s :: findAllQuotedAux fuel rest

/-- re.findall of all double-quoted substrings of a line. -/
def findAllQuoted (s : String) : List String :=
  findAllQuotedAux (s.length + 1) s.data

/-- Maximal run of decimal digits at the head of the input. -/
def takeDigits : List Char → (List Char × List Char)
  | [] => ([], [])
  | c :: rest =>
    if c.isDigit then
      match takeDigits rest with
      | (ds, rem) => (c :: ds, rem)
    else ([], c :: rest)

/-- Natural number denoted by a digit run. -/
def digitsToNat (ds : List Char) : Nat :=
  ds.foldl (fun acc c => acc * 10 + (c.toNat - 48)) 0

/-- Exact rational value of sign * intpart.fracpart * 10 ^ ex. -/
def ratValue (sign : ℚ) (intDs fracDs : List Char) (ex : Int) : ℚ :=
  sign * ((digitsToNat intDs : ℚ) + (digitsToNat fracDs : ℚ) / 10 ^ fracDs.length) *
    (10 : ℚ) ^ ex

/-- Python int() truncation toward zero of an exact rational. -/
def ratTruncToInt (q : ℚ) : Int :=
  if 0 ≤ q then ⌊q⌋ else -⌊-q⌋

/-- Word character of the regex word-boundary test. -/
def isWordChar (c : Char) : Bool := c.isAlphanum || c = '_'

/-- Case-insensitive literal prefix match returning the remainder. -/
def caselessPrefix : List Char → List Char → Option (List Char)
  | [], cs => some cs
  | _ :: _, [] => none
  | p :: ps, c :: cs =>
    if p.toUpper = c.toUpper then caselessPrefix ps cs else none

/-- One-or-more whitespace characters, returning the remainder. -/
def skipWsPlus : List Char → Option (List Char)
  | [] => none
  | c :: rest => if c.isWhitespace then some (skipWs rest) else none

/-- Greedy match of the numeric group of extract_numeric_value's pattern
    at the head of the input ([+-]? digits, optional dot and digits,
    optional exponent marker with optional sign and digits).  none: the
    group does not match here (the search continues); some none: the
    group matches but Python float() rejects the text (an exponent marker
    without digits); some (some q): the exact value. -/
def matchNumericGroup (cs : List Char) : Option (Option ℚ) :=
  let signed : ℚ × List Char :=
    match cs with
    | '+' :: rest => (1, rest)
    | '-' :: rest => (-1, rest)
    | _ => (1, cs)
  match takeDigits signed.2 with
  | ([], _) => none
  | (intDs, cs₂) =>
    let fraction : List Char × List Char :=
      match cs₂ with
      | '.' :: rest => takeDigits rest
      | _ => ([], cs₂)
    match fraction.2 with
    | c :: rest =>
      if c = 'e' ∨ c = 'E' then
        let esigned : Int × List Char :=
          match rest with
          | '+' :: r => (1, r)
          | '-' :: r => (-1, r)
          | _ => (1, rest)
        match takeDigits esigned.2 with
        | ([], _) => some none
        | (expDs, _) =>
          some (some (ratValue signed.1 intDs fraction.1 (esigned.1 * (digitsToNat expDs : Int))))
      else some (some (ratValue signed.1 intDs fraction.1 0))
    | [] => some (some (ratValue signed.1 intDs fraction.1 0))

/-- Match of the full extract_numeric_value pattern at one position
    (after the word-boundary test): the key, one or more whitespace
    characters, then the numeric group. -/
def matchKeyNumAt (key : List Char) (cs : List Char) : Option (Option ℚ) :=
  match caselessPrefix key cs with
  | none => none
  | some rest =>
    match skipWsPlus rest with
    | none => none
    | some rest₂ => matchNumericGroup rest₂

/-- re.search scan for extract_numeric_value: the first position with a
    word boundary where the whole pattern matches; float() failure at
    that match makes the whole extraction return None, exactly as in the
    source. -/
def searchKeyNum (key : List Char) : Option Char → List Char → Option (Option ℚ)
  | _, [] => none
  | prev, c :: rest =>
    let boundary : Bool :=
      match prev with
      | none => true
      | some p => !isWordChar p
    match (if boundary then matchKeyNumAt key (c :: rest) else none) with
    | some r => some r
    | none => searchKeyNum key (some c) rest

/-- extract_numeric_value from parser.py. -/
def extract_numeric_value (s : String) (key : String) : Option ℚ :=
  match searchKeyNum key.data none s.data with
  | none => none
  | some r => r

/-- Match at one position of the keyword-then-quoted-string patterns
    (SECTION\s+"...", MATERIAL\s+"...", RELEASE, DIAPH, SHAPE); these
    patterns carry no word boundary in the source. -/
def matchKeyQuotedAt (key : List Char) (caseless : Bool) (cs : List Char) :
    Option String :=
  let pref : Option (List Char) :=
    if caseless then caselessPrefix key cs
    else if charsPrefix key cs then some (cs.drop key.length) else none
  match pref with
  | none => none
  | some rest =>
    match skipWsPlus rest with
    | none => none
    | some rest₂ =>
      match rest₂ with
      | '"' :: rest₃ =>
        match scanUntilChar '"' rest₃ with
        | some (content, _) => some (String.mk content)
        | none => none
      | _ => none

/-- re.search scan for the keyword-then-quoted-string patterns. -/
def searchKeyQuoted (key : List Char) (caseless : Bool) : List Char → Option String
  | [] => none
  | c :: rest =>
    match matchKeyQuotedAt key caseless (c :: rest) with
    | some s => some s
    | none => searchKeyQuoted key caseless rest

/-- Worker of replaceFirst for a non-empty pattern. -/
def replaceFirstChars (old new : List Char) : List Char → List Char
  | [] => []
  | c :: rest =>
    if charsPrefix old (c :: rest) then new ++ (c :: rest).drop old.length
    else c :: replaceFirstChars old new rest

/-- Python s.replace(old, new, 1): first occurrence only; an empty old
    string inserts new once at the start. -/
def replaceFirst (s old new : String) : String :=
  if old.isEmpty then String.mk (new.data ++ s.data)
  else String.mk (replaceFirstChars old.data new.data s.data)

/-- Greedy match of the factor group [+-]?\d+\.?\d* of the load-combo
    term pattern; when it matches, float() always succeeds. -/
def matchPlainNum (cs : List Char) : Option (ℚ × List Char) :=
  let signed : ℚ × List Char :=
    match cs with
    | '+' :: rest => (1, rest)
    | '-' :: rest => (-1, rest)
    | _ => (1, cs)
  match takeDigits signed.2 with
  | ([], _) => none
  | (intDs, cs₂) =>
    match cs₂ with
    | '.' :: rest =>
      match takeDigits rest with
      | (fracDs, cs₃) => some (ratValue signed.1 intDs fracDs 0, cs₃)
    | _ => some (ratValue signed.1 intDs [] 0, cs₂)

/-- Match at one position of one alternative of the load-combination term
    pattern: KEY \s+ "name" \s+ SF \s+ factor, case-insensitive. -/
def matchComboTermKeyAt (key : List Char) (cs : List Char) :
    Option (String × ℚ × List Char) :=
  match caselessPrefix key cs with
  | none => none
  | some r₁ =>
    match skipWsPlus r₁ with
    | none => none
    | some r₂ =>
      match r₂ with
      | '"' :: r₃ =>
        match scanUntilChar '"' r₃ with
        | none => none
        | some (content, r₄) =>
          match skipWsPlus r₄ with
          | none => none
          | some r₅ =>
            match caselessPrefix ['S', 'F'] r₅ with
            | none => none
            | some r₆ =>
              match skipWsPlus r₆ with
              | none => none
              | some r₇ =>
                match matchPlainNum r₇ with
                | none => none
                | some (q, rest) => some (String.mk content, q, rest)
      | _ => none

/-- Alternation (LOADPAT|LOADCASE|LOADCOMBO) tried left to right, as the
    regex engine does. -/
def matchComboTermAt (cs : List Char) : Option (String × ℚ × List Char) :=
  match matchComboTermKeyAt "LOADPAT".data cs with
  | some r => some r
  | none =>
    match matchComboTermKeyAt "LOADCASE".data cs with
    | some r => some r
    | none => matchComboTermKeyAt "LOADCOMBO".data cs

/-- Worker of findComboTerms: re.finditer semantics, scanning forward and
    resuming after each match; every match consumes at least one
    character, so a fuel of the input length suffices exactly. -/
def findComboTermsAux : Nat → List Char → List (String × ℚ)
  | 0, _ => []
  | fuel + 1, cs =>
    match cs with
    | [] => []
    | c :: rest =>
      match matchComboTermAt (c :: rest) with
      | some (n, f, after) => (n, f) :: findComboTermsAux fuel after
      | none => findComboTermsAux fuel rest

/-- re.finditer of the load-combination term pattern over one line. -/
def findComboTerms (s : String) : List (String × ℚ) :=
  findComboTermsAux (s.length + 1) s.data

/-- Python float(str) on a whitespace-stripped token: optional sign,
    digits with an optional fractional part (or a leading-dot fraction),
    then an optional complete exponent, with nothing left over.  The
    inf/nan spellings and underscore digit separators Python also accepts
    do not occur in these files and are not modelled. -/
def pyFloatChars (cs : List Char) : Option ℚ :=
  let signed : ℚ × List Char :=
    match cs with
    | '+' :: rest => (1, rest)
    | '-' :: rest => (-1, rest)
    | _ => (1, cs)
  match takeDigits signed.2 with
  | (intDs, cs₂) =>
    let fraction : List Char × List Char :=
      match cs₂ with
      | '.' :: rest => takeDigits rest
      | _ => ([], cs₂)
    if intDs.isEmpty && fraction.1.isEmpty then none
    else
      match fraction.2 with
      | [] => some (ratValue signed.1 intDs fraction.1 0)
      | c :: rest =>
        if c = 'e' ∨ c = 'E' then
          let esigned : Int × List Char :=
            match rest with
            | '+' :: r => (1, r)
            | '-' :: r => (-1, r)
            | _ => (1, rest)
          match takeDigits esigned.2 with
          | ([], _) => none
          | (expDs, cs₅) =>
            if cs₅.isEmpty then
              some (ratValue signed.1 intDs fraction.1 (esigned.1 * (digitsToNat expDs : Int)))
            else none
        else none

/-- Python float() of one token. -/
def pyFloat (s : String) : Option ℚ := pyFloatChars (pyStrip s).data

/- ---------------------------------------------------------------------
   parser.py: the text segmenter and the section parsers
   --------------------------------------------------------------------- -/

/-- parse_sections_from_text from parser.py: split raw text into a
    mapping from section name to the section's stripped, non-blank lines.
    Header lines start (after stripping) with the dollar marker; the
    special File header stores the metadata line itself; redeclaring a
    name overwrites its content (dict assignment).  Lines are split on
    the newline character; carriage returns disappear in the per-line
    strip.  The loop body segStep takes the running state: the
    accumulated sections, the current section name and the current
    section's lines. -/
def segStep (st : List (String × List String) × Option String × List String)
    (rawLine : String) : List (String × List String) × Option String × List String :=
  let line := pyStrip rawLine
  if line = "" then st
  else if pyStartsWith line "$" then
    let sections :=
      match st.2.1 with
      | some name => dictInsert st.1 name st.2.2
      | none => st.1
    if pyStartsWith line "$ File " then
      (sections, some "File", [pyStrip (pyDrop line 1)])
    else
      (sections, some (pyStrip (pyDrop line 1)), [])
  else
    match st.2.1 with
    | some _ => (st.1, st.2.1, st.2.2 ++ [line])
    | none => st

def parse_sections_from_text (text : String) : List (String × List String) :=
  let final := (pyLines text).foldl segStep ([], none, [])
  match final.2.1 with
  | some name => dictInsert final.1 name final.2.2
  | none => final.1

/-- PROGRAM CONTROL fallback of parse_et_file: the token following the
    first token of the line that contains VERSION. -/
def versionFromParts : List String → Option String
  | [] => none
  | p :: rest =>
    if strContains (pyUpper p) "VERSION" && !rest.isEmpty then rest.head?
    else versionFromParts rest

/-- parse_program_information from parser.py. -/
def parse_program_information (lines : List String) : ProgramInfo :=
  let step := fun (st : String × String × Option String) (line : String) =>
    let line_upper := pyUpper line
    let program :=
      if strContains line_upper "PROGRAM" then
        match extract_quoted_string line with
        | some p => if p ≠ "" then p else st.1
        | none => st.1
      else st.1
    let version :=
      if strContains line_upper "VERSION" then
        match extract_quoted_string line with
        | some v => if v ≠ "" then v else st.2.1
        | none => st.2.1
      else st.2.1
    let build :=
      if strContains line_upper "BUILD" then
        match extract_numeric_value line "BUILD" with
        | some b => if b ≠ 0 then some (toString (ratTruncToInt b)) else st.2.2
        | none => st.2.2
      else st.2.2
    (program, version, build)
  let final := lines.foldl step ("ETABS", "Unknown", none)
  ⟨final.1, final.2.1, final.2.2, none⟩

/-- Second pass of parse_story_data: the first line that mentions the
    story name and a HEIGHT keyword and yields a truthy height value (the
    source keeps scanning past lines whose extracted height is falsy). -/
def findStoryHeight (story_name : String) : List String → Option ℚ
  | [] => none
  | line :: rest =>
    if strContains line story_name && strContains (pyUpper line) "HEIGHT" then
      match extract_numeric_value line "HEIGHT" with
      | some h => if h ≠ 0 then some h else findStoryHeight story_name rest
      | none => findStoryHeight story_name rest
    else findStoryHeight story_name rest

/-- parse_story_data from parser.py: a first pass that records explicit
    elevations and queues height-only stories, then a bottom-up pass that
    accumulates heights into elevations. -/
def parse_story_data (lines : List String) : List (String × Story) :=
  let step := fun (st : List (String × ℚ) × List String) (line : String) =>
    if !(pyStartsWith (pyStrip line) "STORY") then st
    else
      match extract_quoted_string line with
      | none => st
      | some story_name =>
        if story_name = "" then st
        else
          match extract_numeric_value line "ELEV" with
          | some e => (dictInsert st.1 story_name e, st.2)
          | none =>
            -- both the height branch and the neither branch of the source
            -- record a placeholder elevation and queue the story
            (dictInsert st.1 story_name 0, st.2 ++ [story_name])
  let pass1 := lines.foldl step ([], [])
  let elevation_map :=
    if pass1.2.isEmpty then pass1.1
    else
      let step2 := fun (st : ℚ × List (String × ℚ)) (story_name : String) =>
        if (alookup st.2 story_name).isSome then
          match findStoryHeight story_name lines with
          | some h => (st.1 + h, dictInsert st.2 story_name (st.1 + h))
          | none => st
        else st
      (pass1.2.reverse.foldl step2 (0, pass1.1)).2
  elevation_map.map fun kv => (kv.1, ⟨kv.1, kv.2, none, false, none⟩)

/-- parse_grid_lines from parser.py. -/
def parse_grid_lines (lines : List String) : List GridLine :=
  lines.foldl (fun grids line =>
    if !(pyStartsWith (pyStrip line) "GRID") then grids
    else
      match extract_quoted_string line with
      | none => grids
      | some label =>
        if label = "" then grids
        else
          let direction : Option String :=
            if strContains line "DIR \"X\"" || strContains line "DIR X" then some "X"
            else if strContains line "DIR \"Y\"" || strContains line "DIR Y" then some "Y"
            else none
          match direction with
          | none => grids
          | some dir =>
            match extract_numeric_value line "COORD" with
            | some coord => grids ++ [⟨label, coord, dir⟩]
            | none => grids) []

/-- parse_joint_coordinates from parser.py: lines with at least four
    whitespace tokens; the name is the first token, or the first quoted
    string when the first token opens a quote; three float coordinates
    follow, and any conversion failure skips the line. -/
def parse_joint_coordinates (lines : List String) : List (String × Joint) :=
  lines.foldl (fun joints line =>
    let parts := pySplitWs line
    if parts.length < 4 then joints
    else
      let joint_name? : Option String :=
        match parts.head? with
        | some p0 => if pyStartsWith p0 "\"" then extract_quoted_string line else some p0
        | none => none
      match joint_name? with
      | none => joints
      | some joint_name =>
        if joint_name = "" then joints
        else
          match parts.get? 1, parts.get? 2, parts.get? 3 with
          | some sx, some sy, some sz =>
            match pyFloat sx, pyFloat sy, pyFloat sz with
            | some x, some y, some z =>
              dictInsert joints joint_name ⟨joint_name, x, y, z, none, none, none⟩
            | _, _, _ => joints
          | _, _, _ => joints) []

/-- parse_frame_objects from parser.py (the joints argument is accepted
    and unused, as in the source).  LINE-format lines take the quoted
    names; traditional lines take whitespace tokens with an optional
    fourth section token; falsy names skip the line. -/
def parse_frame_objects (lines : List String) (joints : List (String × Joint)) :
    List (String × FrameObject) :=
  lines.foldl (fun frames line =>
    let parts := pySplitWs line
    if parts.length < 3 then frames
    else
      let pieces : Option String × Option String × Option String × Option String :=
        if pyUpper (parts.headD "") = "LINE" then
          let frame_name? := extract_quoted_string line
          let pm := findAllQuoted line
          if pm.length ≥ 2 then
            (frame_name?, pm.get? 1,
             if pm.length > 2 then pm.get? 2 else pm.get? 1, none)
          else (frame_name?, none, none, none)
        else
          (parts.get? 0, parts.get? 1, parts.get? 2,
           if parts.length ≥ 4 then parts.get? 3 else none)
      match pieces.1, pieces.2.1, pieces.2.2.1 with
      | some fn, some ji, some jj =>
        if fn ≠ "" && ji ≠ "" && jj ≠ "" then
          dictInsert frames fn ⟨fn, ji, jj, pyOrStr pieces.2.2.2 "Unknown",
            none, none, {}, []⟩
        else frames
      | _, _, _ => frames) []

/-- parse_material_properties from parser.py: a current-material state
    machine; the type tag is keyed off the first quoted string of the
    line (which is the material name itself), and each numeric property
    updates the current material when its value is truthy. -/
def parse_material_properties (lines : List String) : List (String × Material) :=
  let step := fun (st : List (String × Material) × Option String) (line : String) =>
    if !(pyStartsWith (pyStrip line) "MATERIAL") then st
    else
      let named : List (String × Material) × Option String :=
        match extract_quoted_string line with
        | some mat_name =>
          if mat_name ≠ "" then
            let materials :=
              if (alookup st.1 mat_name).isNone then
                let mat_type :=
                  if strContains (pyUpper line) "TYPE" then
                    match extract_quoted_string line with
                    | some tm =>
                      let tu := pyUpper tm
                      if strContains tu "STEEL" then "steel"
                      else if strContains tu "CONCRETE" then "concrete"
                      else "other"
                    | none => "other"
                  else "other"
                dictInsert st.1 mat_name ⟨mat_name, mat_type, none, none, none, none, []⟩
              else st.1
            (materials, some mat_name)
          else st
        | none => st
      match named.2 with
      | some cm =>
        match alookup named.1 cm with
        | some mat =>
          let mat := match extract_numeric_value line "E" with
            | some v => if v ≠ 0 then { mat with E := some v } else mat
            | none => mat
          let mat := match extract_numeric_value line "FY" with
            | some v => if v ≠ 0 then { mat with Fy := some v } else mat
            | none => mat
          let mat := match extract_numeric_value line "FC" with
            | some v => if v ≠ 0 then { mat with fc := some v } else mat
            | none => mat
          let mat := match extract_numeric_value line "WEIGHTPERVOLUME" with
            | some v => if v ≠ 0 then { mat with density := some v } else mat
            | none => mat
          (dictInsert named.1 cm mat, named.2)
        | none => named
      | none => named
  (lines.foldl step ([], none)).1

/-- Python expression opt or the empty string. -/
def pyOrEmpty (o : Option String) : String := o.getD ""

/-- parse_frame_sections from parser.py: the material is the first quoted
    string after removing the section name once (with a MATERIAL-keyword
    fallback), the shape likewise after also removing the material, with
    a SHAPE-keyword fallback; both fallback regexes are case-sensitive,
    and a failing fallback keeps the falsy extracted value (None or the
    empty string), as the source's conditional reassignment does. -/
def parse_frame_sections (lines : List String) : List (String × FrameSection) :=
  lines.foldl (fun sections line =>
    if !(pyStartsWith (pyStrip line) "FRAMESECTION") then sections
    else
      match extract_quoted_string line with
      | none => sections
      | some section_name =>
        if section_name = "" then sections
        else
          let material₀ := extract_quoted_string (replaceFirst line section_name "")
          let material :=
            if optStrTruthy material₀ then material₀
            else
              match searchKeyQuoted "MATERIAL".data false line.data with
              | some m => some m
              | none => material₀
          let shape₀ := extract_quoted_string
            (replaceFirst (replaceFirst line section_name "") (pyOrEmpty material) "")
          let shape :=
            if optStrTruthy shape₀ then shape₀
            else
              match searchKeyQuoted "SHAPE".data false line.data with
              | some sh => some sh
              | none => shape₀
          if (alookup sections section_name).isNone then
            dictInsert sections section_name
              ⟨section_name, pyOrStr material "Unknown", "I", shape,
               none, none, none, none, []⟩
          else sections) []

/-- parse_load_patterns from parser.py. -/
def parse_load_patterns (lines : List String) : List (String × LoadPattern) :=
  lines.foldl (fun patterns line =>
    if !(pyStartsWith (pyStrip line) "LOADPATTERN") then patterns
    else
      match extract_quoted_string line with
      | none => patterns
      | some pattern_name =>
        if pattern_name = "" then patterns
        else
          let load_type :=
            if strContains (pyUpper line) "TYPE" then
              pyOrStr (extract_quoted_string (replaceFirst line pattern_name "")) "Dead"
            else "Dead"
          let self_weight := (extract_numeric_value line "SELFWEIGHT").getD 0
          dictInsert patterns pattern_name ⟨pattern_name, load_type, self_weight, []⟩) []

/-- parse_load_cases from parser.py: a current-case state machine; a
    LOADPAT keyword on a line of the current case stores the line's first
    quoted string as the associated pattern. -/
def parse_load_cases (lines : List String) : List (String × LoadCase) :=
  let step := fun (st : List (String × LoadCase) × Option String) (line : String) =>
    if !(pyStartsWith (pyStrip line) "LOADCASE") then st
    else
      let named : List (String × LoadCase) × Option String :=
        match extract_quoted_string line with
        | some case_name =>
          if case_name ≠ "" then
            let cases :=
              if (alookup st.1 case_name).isNone then
                let case_type :=
                  if strContains (pyUpper line) "TYPE" then
                    pyOrStr (extract_quoted_string (replaceFirst line case_name ""))
                      "Linear Static"
                  else "Linear Static"
                dictInsert st.1 case_name ⟨case_name, case_type, none, false, []⟩
              else st.1
            (cases, some case_name)
          else st
        | none => st
      match named.2 with
      | some cc =>
        match alookup named.1 cc with
        | some lc =>
          if strContains (pyUpper line) "LOADPAT" then
            match extract_quoted_string line with
            | some p =>
              if p ≠ "" then (dictInsert named.1 cc { lc with pattern := some p }, named.2)
              else named
            | none => named
          else named
        | none => named
      | none => named
  (lines.foldl step ([], none)).1

/-- parse_load_combinations from parser.py: a current-combo state
    machine; every line of the current combo contributes the terms its
    term-pattern matches produce, in order. -/
def parse_load_combinations (lines : List String) : List (String × LoadCombo) :=
  let step := fun (st : List (String × LoadCombo) × Option String) (line : String) =>
    if !(pyStartsWith (pyStrip line) "LOADCOMBO") then st
    else
      let named : List (String × LoadCombo) × Option String :=
        match extract_quoted_string line with
        | some combo_name =>
          if combo_name ≠ "" then
            let combos :=
              if (alookup st.1 combo_name).isNone then
                let design_type :=
                  if strContains (pyUpper line) "DESIGNTYPE" then
                    match extract_quoted_string (replaceFirst line combo_name "") with
                    | some dt => if dt ≠ "" then some dt else none
                    | none => none
                  else none
                dictInsert st.1 combo_name ⟨combo_name, design_type, [], []⟩
              else st.1
            (combos, some combo_name)
          else st
        | none => st
      match named.2 with
      | some cc =>
        match alookup named.1 cc with
        | some combo =>
          let newTerms := (findComboTerms line).map fun nf => LoadComboTerm.mk nf.1 nf.2
          (dictInsert named.1 cc { combo with terms := combo.terms ++ newTerms }, named.2)
        | none => named
      | none => named
  (lines.foldl step ([], none)).1

/-- parse_line_assigns from parser.py: at least three quoted strings; the
    section comes from the case-insensitive SECTION keyword or from the
    third quoted string; a falsy section skips the line; duplicate
    (frame, story) keys are last-write-wins. -/
def parse_line_assigns (lines : List String) :
    List ((String × String) × FrameAssignment) :=
  lines.foldl (fun assignments line =>
    if !(pyStartsWith (pyStrip line) "LINEASSIGN") then assignments
    else
      let qs := findAllQuoted line
      if qs.length < 3 then assignments
      else
        match qs.get? 0, qs.get? 1 with
        | some frame_name, some story =>
          let section? : Option String :=
            match searchKeyQuoted "SECTION".data true line.data with
            | some s => some s
            | none => qs.get? 2
          match section? with
          | none => assignments
          | some sec =>
            if sec = "" then assignments
            else
              dictInsert assignments (frame_name, story)
                ⟨frame_name, story, sec,
                 extract_numeric_value line "PROPMODT",
                 extract_numeric_value line "PROPMODI22",
                 extract_numeric_value line "PROPMODI33",
                 searchKeyQuoted "RELEASE".data true line.data, []⟩
        | _, _ => assignments) []

/-- parse_area_assigns from parser.py. -/
def parse_area_assigns (lines : List String) :
    List ((String × String) × AreaAssignment) :=
  lines.foldl (fun assignments line =>
    if !(pyStartsWith (pyStrip line) "AREAASSIGN") then assignments
    else
      let qs := findAllQuoted line
      if qs.length < 2 then assignments
      else
        match qs.get? 0, qs.get? 1 with
        | some area_name, some story =>
          let section? : Option String :=
            match searchKeyQuoted "SECTION".data true line.data with
            | some s => some s
            | none => if qs.length ≥ 3 then qs.get? 2 else none
          match section? with
          | none => assignments
          | some sec =>
            if sec = "" then assignments
            else
              dictInsert assignments (area_name, story)
                ⟨area_name, story, sec,
                 searchKeyQuoted "DIAPH".data true line.data, []⟩
        | _, _ => assignments) []

/-- parse_et_file from parser.py with the file I/O modelled away: the
    function receives the path (recorded only in program_info.source_file)
    together with the file's decoded text; the FileNotFoundError branch
    concerns the filesystem and stays outside the embedding.  Every
    segmented section, parsed or not, is stored in raw_sections. -/
def parse_et_file (path : String) (text : String) : EtabsModel :=
  let sections := parse_sections_from_text text
  let program_info : ProgramInfo :=
    match alookup sections "PROGRAM INFORMATION" with
    | some ls => { parse_program_information ls with source_file := some path }
    | none =>
      match alookup sections "PROGRAM CONTROL" with
      | some ls =>
        let version := ls.foldl (fun version line =>
          if strContains (pyUpper line) "VERSION" then
            match versionFromParts (pySplitWs line) with
            | some v => v
            | none => version
          else version) "Unknown"
        ⟨"ETABS", version, none, some path⟩
      | none => ⟨"ETABS", "Unknown", none, some path⟩
  let stories :=
    match alookup sections "STORIES - IN SEQUENCE FROM TOP" with
    | some ls => parse_story_data ls
    | none =>
      match alookup sections "STORY DATA" with
      | some ls => parse_story_data ls
      | none => []
  let grids :=
    match alookup sections "GRIDS" with
    | some ls => parse_grid_lines ls
    | none => []
  let joints :=
    match alookup sections "JOINT COORDINATES" with
    | some ls => parse_joint_coordinates ls
    | none =>
      match alookup sections "POINT COORDINATES" with
      | some ls => parse_joint_coordinates ls
      | none => []
  let frames :=
    match alookup sections "FRAME OBJECTS" with
    | some ls => parse_frame_objects ls joints
    | none =>
      match alookup sections "LINE CONNECTIVITIES" with
      | some ls => parse_frame_objects ls joints
      | none => []
  let materials :=
    match alookup sections "MATERIAL PROPERTIES" with
    | some ls => parse_material_properties ls
    | none => []
  let frame_sections :=
    match alookup sections "FRAME SECTIONS" with
    | some ls => parse_frame_sections ls
    | none => []
  let load_patterns :=
    match alookup sections "LOAD PATTERNS" with
    | some ls => parse_load_patterns ls
    | none => []
  let load_cases :=
    match alookup sections "LOAD CASES" with
    | some ls => parse_load_cases ls
    | none => []
  let load_combos :=
    match alookup sections "LOAD COMBINATIONS" with
    | some ls => parse_load_combinations ls
    | none => []
  let frame_assignments :=
    match alookup sections "LINE ASSIGNS" with
    | some ls => parse_line_assigns ls
    | none => []
  let area_assignments :=
    match alookup sections "AREA ASSIGNS" with
    | some ls => parse_area_assigns ls
    | none => []
  { program_info := program_info, stories := stories, grids := grids,
    joints := joints, frames := frames, materials := materials,
    frame_sections := frame_sections, load_patterns := load_patterns,
    load_cases := load_cases, load_combos := load_combos,
    frame_assignments := frame_assignments, area_assignments := area_assignments,
    raw_sections := sections }

/- ---------------------------------------------------------------------
   Claim-side definitions (well-formedness, diff key pairs, first-nearest
   specification, cluster grouping specification)
   --------------------------------------------------------------------- -/

/-- Pairs (object_type, key) of the added records of a raw diff. -/
def diffAddedPairs (d : RawDiff) : List (String × String) :=
  d.added.map fun a => (a.object_type, a.key)

/-- Pairs (object_type, key) of the removed records of a raw diff. -/
def diffRemovedPairs (d : RawDiff) : List (String × String) :=
  d.removed.map fun r => (r.object_type, r.key)

/-- Well-formedness of a snapshot: every dict-valued collection has
    unique keys, which Python dicts guarantee by construction. -/
def ModelWF (m : EtabsModel) : Prop :=
  (m.stories.map Prod.fst).Nodup ∧ (m.joints.map Prod.fst).Nodup ∧
  (m.frames.map Prod.fst).Nodup ∧ (m.materials.map Prod.fst).Nodup ∧
  (m.frame_sections.map Prod.fst).Nodup ∧ (m.load_patterns.map Prod.fst).Nodup ∧
  (m.load_cases.map Prod.fst).Nodup ∧ (m.load_combos.map Prod.fst).Nodup ∧
  (m.frame_assignments.map Prod.fst).Nodup ∧ (m.area_assignments.map Prod.fst).Nodup ∧
  (m.raw_sections.map Prod.fst).Nodup

instance (m : EtabsModel) : Decidable (ModelWF m) := by
  unfold ModelWF; infer_instance

/-- Specification (from the claim text): the entry with the smallest
    second component, ties broken in favor of the earliest entry. -/
def specFirstNearest : List (String × ℚ) → Option (String × ℚ)
  | [] => none
  | e :: l =>
    match specFirstNearest l with
    | none => some e
    | some b => if b.2 < e.2 then some b else some e

/-- All contributions the section-swap aggregation extracts from a raw
    diff (the records its fold does not skip), in order. -/
def swapContributions (d : RawDiff) (new : EtabsModel) : List SwapContribution :=
  d.modified.filterMap (swapContribution new)

/-- Contributions carrying one cluster key. -/
def contribsWithKey (cs : List SwapContribution) (k : String) : List SwapContribution :=
  cs.filter fun c => c.key = k

/-- Specification of one accumulated (pre-materialization) cluster
    against the ordered list ks of the contributions that share its key:
    identity fields from the first contribution, count equal to the
    number of contributions, examples capped at five, and grid sets
    accumulated (in first-seen order) from exactly the contributions
    carrying grid tags on both axes. -/
def ClusterSpec (ks : List SwapContribution) (cl : SectionSwapCluster) : Prop :=
  ∃ c₀ rest, ks = c₀ :: rest ∧
    cl.object_type = c₀.object_type ∧ cl.story = c₀.story ∧
    cl.old_section = c₀.old_section ∧ cl.new_section = c₀.new_section ∧
    cl.count = ks.length ∧
    cl.example_objects = (ks.map (fun c => c.example_object)).take 5 ∧
    ((cl.grid_region = none ∧ ks.filterMap (fun c => c.grids) = []) ∨
     (∃ gx gy, cl.grid_region = some ⟨gx, gy⟩ ∧
        ks.filterMap (fun c => c.grids) ≠ [] ∧
        gx = List.foldl setInsert []
          ((ks.filterMap (fun c => c.grids)).map Prod.fst) ∧
        gy = List.foldl setInsert []
          ((ks.filterMap (fun c => c.grids)).map Prod.snd)))

/- ---------------------------------------------------------------------
   Concrete snapshots, diffs and texts used by witnesses and
   counterexamples
   --------------------------------------------------------------------- -/

/-- Program header shared by the concrete example snapshots. -/
def piTest : ProgramInfo := ⟨"ETABS", "22.1.0", none, none⟩

/-- Example snapshot with one story. -/
def c2ModelA : EtabsModel :=
  { program_info := piTest, stories := [("S1", ⟨"S1", 0, none, false, none⟩)] }

/-- Example empty snapshot. -/
def c2ModelB : EtabsModel := { program_info := piTest }

/-- Raw diff holding one frame-assignment section change whose frame does
    not resolve in the new snapshot. -/
def c3Diff : RawDiff :=
  ⟨[], [], [⟨"frame_assignment", "('F9', 'S1')",
    [⟨"section", PVal.vStr "W1", PVal.vStr "W2"⟩], none⟩]⟩

/-- New snapshot without any frames. -/
def c3New : EtabsModel := { program_info := piTest }

/-- Frame carrying no location information at all. -/
def c3Frame : FrameObject := ⟨"F1", "J1", "J2", "W1", none, none, {}, []⟩

/-- New snapshot resolving the frame of c3DiffOk. -/
def c3NewOk : EtabsModel := { program_info := piTest, frames := [("F1", c3Frame)] }

/-- Raw diff holding one frame section change whose frame resolves but
    carries no location information. -/
def c3DiffOk : RawDiff :=
  ⟨[], [], [⟨"frame", "F1", [⟨"section", PVal.vStr "W1", PVal.vStr "W2"⟩], none⟩]⟩

/-- Frame whose location carries a grid tag on the X axis only. -/
def c4Frame : FrameObject :=
  ⟨"F2", "J1", "J2", "W", none, some "beam", { grid_x := some "A" }, []⟩

/-- New snapshot resolving c4Frame. -/
def c4New : EtabsModel := { program_info := piTest, frames := [("F2", c4Frame)] }

/-- Raw diff holding one section change on c4Frame. -/
def c4Diff : RawDiff :=
  ⟨[], [], [⟨"frame", "F2", [⟨"section", PVal.vStr "W1", PVal.vStr "W2"⟩], none⟩]⟩

/-- Two beams on the same story with grid tags on both axes. -/
def c4wFrameA : FrameObject :=
  ⟨"FA", "J1", "J2", "W", some "L1", some "beam",
   { story := some "L1", grid_x := some "B", grid_y := some "2" }, []⟩

def c4wFrameB : FrameObject :=
  ⟨"FB", "J3", "J4", "W", some "L1", some "beam",
   { story := some "L1", grid_x := some "A", grid_y := some "1" }, []⟩

def c4wNew : EtabsModel :=
  { program_info := piTest, frames := [("FA", c4wFrameA), ("FB", c4wFrameB)] }

/-- Raw diff with two section changes clustering to one key. -/
def c4wDiff : RawDiff :=
  ⟨[], [], [⟨"frame", "FA", [⟨"section", PVal.vStr "W1", PVal.vStr "W2"⟩], none⟩,
    ⟨"frame", "FB", [⟨"section", PVal.vStr "W1", PVal.vStr "W2"⟩], none⟩]⟩

/-- Snapshot with an empty-named X grid line passing through the joint. -/
def c5Model : EtabsModel :=
  { program_info := piTest, grids := [⟨"", 0, "X"⟩],
    joints := [("J1", ⟨"J1", 0, 0, 0, none, none, none⟩)] }

/-- Snapshot with two stories and one grid line per axis. -/
def c5wModel : EtabsModel :=
  { program_info := piTest,
    stories := [("S1", ⟨"S1", 0, none, false, none⟩), ("S2", ⟨"S2", 100, none, false, none⟩)],
    grids := [⟨"A", 0, "X"⟩, ⟨"1", 5, "Y"⟩],
    joints := [("J1", ⟨"J1", 0, 50, 30, none, none, none⟩)] }

/-- Snapshot with a frame whose endpoint joints do not resolve. -/
def c10Model : EtabsModel :=
  { program_info := piTest,
    frames := [("F1", ⟨"F1", "JX", "JY", "S", none, none, {}, []⟩)] }

/-- Text of the old snapshot of the C9 scenario. -/
def c9TextA : String := "$ JOINT COORDINATES\nJ1 0 0 0"

/-- Text of the new snapshot of the C9 scenario (the joint moved). -/
def c9TextB : String := "$ JOINT COORDINATES\nJ1 0 0 5"

/- ---------------------------------------------------------------------
   Theorems
   --------------------------------------------------------------------- -/

/-- Agreement of association-list values under unique keys: with nodup
    keys, two bindings of the same key carry the same value. -/
theorem nodup_keys_eq {α : Type} {l : List (String × α)}
    (h : (l.map Prod.fst).Nodup) {k : String} {v w : α}
    (hv : (k, v) ∈ l) (hw : (k, w) ∈ l) : v = w := by
  induction l with
  | nil => cases hv
  | cons hd tl ih =>
    rcases List.mem_cons.mp hv with hv1 | hv1 <;>
      rcases List.mem_cons.mp hw with hw1 | hw1
    · exact (Prod.ext_iff.mp (hv1.trans hw1.symm)).2
    · exfalso
      have hk : hd.1 = k := by rw [← hv1]
      have hmem : k ∈ tl.map Prod.fst := List.mem_map.mpr ⟨(k, w), hw1, rfl⟩
      rw [List.map_cons, List.nodup_cons] at h
      exact h.1 (hk ▸ hmem)
    · exfalso
      have hk : hd.1 = k := by rw [← hw1]
      have hmem : k ∈ tl.map Prod.fst := List.mem_map.mpr ⟨(k, v), hv1, rfl⟩
      rw [List.map_cons, List.nodup_cons] at h
      exact h.1 (hk ▸ hmem)
    · rw [List.map_cons, List.nodup_cons] at h
      exact ih h.2 hv1 hw1

/-- Field name carried by a change the comparison step emits. -/
theorem compareFieldStep_field {newF : List (String × PVal)}
    {numeric_tol : List (String × ℚ)} {fv : String × PVal} {fc : FieldChange}
    (h : compareFieldStep newF numeric_tol fv = some fc) : fc.field = fv.1 := by
  unfold compareFieldStep at h
  split at h
  · exact absurd h (by simp)
  · split at h
    · exact absurd h (by simp)
    · split at h
      · split at h
        · exact absurd h (by simp)
        · rw [Option.some.injEq] at h
          rw [← h]
      · rw [Option.some.injEq] at h
        rw [← h]

/-- C1: for two records present in both snapshots and a declared numeric
    field, a difference of exactly the configured tolerance for that
    field (with the generic coordinate fallback) produces no FieldChange,
    while a difference exceeding the tolerance produces a FieldChange
    carrying the literal old and new values. -/
theorem c1_tolerance_boundary
    (oldF newF : List (String × PVal)) (numeric_tol : List (String × ℚ))
    (fname : String) (a b : ℚ)
    (hnodup : (oldF.map Prod.fst).Nodup)
    (hold : (fname, PVal.vNum a) ∈ oldF)
    (hnew : alookup newF fname = some (PVal.vNum b))
    (hraw : ¬(fname = "raw_fields" ∨ fname = "raw_sections"))
    (htol : 0 ≤ tolFor numeric_tol fname) :
    (|a - b| = tolFor numeric_tol fname →
      ∀ fc ∈ compare_objects oldF newF numeric_tol, fc.field ≠ fname) ∧
    (tolFor numeric_tol fname < |a - b| →
      FieldChange.mk fname (PVal.vNum a) (PVal.vNum b) ∈
        compare_objects oldF newF numeric_tol) := by
  constructor
  · intro heq fc hfc hfield
    rw [compare_objects, List.mem_filterMap] at hfc
    obtain ⟨⟨f1, f2⟩, hfv, hsome⟩ := hfc
    have h1 : f1 = fname := (compareFieldStep_field hsome).symm.trans hfield
    subst h1
    have h2 : f2 = PVal.vNum a := nodup_keys_eq hnodup hfv hold
    subst h2
    unfold compareFieldStep at hsome
    rw [if_neg hraw] at hsome
    dsimp only at hsome
    rw [hnew] at hsome
    dsimp only [Option.getD_some] at hsome
    by_cases hab : a = b
    · have hpv : pvalEq (PVal.vNum a) (PVal.vNum b) = true := by
        simp [pvalEq, pvToNum, hab]
      rw [if_pos hpv] at hsome
      exact Option.noConfusion hsome
    · have hpv : pvalEq (PVal.vNum a) (PVal.vNum b) = false := by
        simp [pvalEq, pvToNum, hab]
      rw [hpv] at hsome
      simp only [Bool.false_eq_true, if_false, pvToNum] at hsome
      rw [if_pos (le_of_eq heq)] at hsome
      exact Option.noConfusion hsome
  · intro hlt
    have hab : a ≠ b := by
      intro h
      rw [h, sub_self, abs_zero] at hlt
      exact absurd hlt (not_lt.mpr htol)
    rw [compare_objects, List.mem_filterMap]
    refine ⟨(fname, PVal.vNum a), hold, ?_⟩
    have hpv : pvalEq (PVal.vNum a) (PVal.vNum b) = false := by
      simp [pvalEq, pvToNum, hab]
    unfold compareFieldStep
    rw [if_neg hraw]
    dsimp only
    rw [hnew]
    dsimp only [Option.getD_some]
    rw [hpv]
    simp only [Bool.false_eq_true, if_false, pvToNum]
    rw [if_neg (not_le.mpr hlt)]

/-- C1 witness: the elevation field with the default tolerances at the
    concrete values 0 and 2. -/
theorem c1_tolerance_boundary_witness :
    FieldChange.mk "elevation" (PVal.vNum 0) (PVal.vNum 2) ∈
      compare_objects [("elevation", PVal.vNum 0)] [("elevation", PVal.vNum 2)]
        defaultNumericTol :=
  (c1_tolerance_boundary [("elevation", PVal.vNum 0)] [("elevation", PVal.vNum 2)]
    defaultNumericTol "elevation" 0 2 (by decide) (by decide) (by decide)
    (by decide) (by norm_num [tolFor, defaultNumericTol, alookup])).2
    (by norm_num [tolFor, defaultNumericTol, alookup, abs_sub_comm])

/-- Generalization of nodup_keys_eq to arbitrary key types. -/
theorem nodup_keys_eq' {κ α : Type} [DecidableEq κ] {l : List (κ × α)}
    (h : (l.map Prod.fst).Nodup) {k : κ} {v w : α}
    (hv : (k, v) ∈ l) (hw : (k, w) ∈ l) : v = w := by
  induction l with
  | nil => cases hv
  | cons hd tl ih =>
    rcases List.mem_cons.mp hv with hv1 | hv1 <;>
      rcases List.mem_cons.mp hw with hw1 | hw1
    · exact (Prod.ext_iff.mp (hv1.trans hw1.symm)).2
    · exfalso
      have hk : hd.1 = k := by rw [← hv1]
      have hmem : k ∈ tl.map Prod.fst := List.mem_map.mpr ⟨(k, w), hw1, rfl⟩
      rw [List.map_cons, List.nodup_cons] at h
      exact h.1 (hk ▸ hmem)
    · exfalso
      have hk : hd.1 = k := by rw [← hw1]
      have hmem : k ∈ tl.map Prod.fst := List.mem_map.mpr ⟨(k, v), hv1, rfl⟩
      rw [List.map_cons, List.nodup_cons] at h
      exact h.1 (hk ▸ hmem)
    · rw [List.map_cons, List.nodup_cons] at h
      exact ih h.2 hv1 hw1

/-- Lookup success is key membership. -/
theorem alookup_isSome {κ α : Type} [DecidableEq κ] (l : List (κ × α)) (k : κ) :
    (alookup l k).isSome ↔ k ∈ l.map Prod.fst := by
  induction l with
  | nil => simp [alookup]
  | cons hd tl ih =>
    rw [alookup]
    by_cases h : hd.1 = k
    · simp [h]
    · rw [if_neg h, List.map_cons, List.mem_cons]
      rw [ih]
      constructor
      · exact Or.inr
      · rintro (h1 | h1)
        · exact absurd h1.symm h
        · exact h1

/-- Lookup of a present key under unique keys returns its value. -/
theorem alookup_of_mem_nodup {κ α : Type} [DecidableEq κ] {l : List (κ × α)}
    {k : κ} {v : α} (hv : (k, v) ∈ l) (h : (l.map Prod.fst).Nodup) :
    alookup l k = some v := by
  induction l with
  | nil => cases hv
  | cons hd tl ih =>
    rw [alookup]
    rcases List.mem_cons.mp hv with hv1 | hv1
    · rw [← hv1]
      simp
    · by_cases hk : hd.1 = k
      · exfalso
        have hmem : k ∈ tl.map Prod.fst := List.mem_map.mpr ⟨(k, v), hv1, rfl⟩
        rw [List.map_cons, List.nodup_cons] at h
        exact h.1 (hk ▸ hmem)
      · rw [if_neg hk]
        rw [List.map_cons, List.nodup_cons] at h
        exact ih hv1 h.2

/-- Reflexivity of Python equality on PVal. -/
theorem pvalEq_refl (x : PVal) : pvalEq x x = true := by
  cases h : pvToNum x <;> simp [pvalEq, h]

/-- The added pairs of one dict collection coincide, as lists, with the
    removed pairs of the same collection diffed in the opposite
    direction: both walk the same dict and apply the same absence test. -/
theorem added_removed_swap {κ α : Type} [DecidableEq κ] (t : String)
    (A B : List (κ × α)) (ks : κ → String) (ser : α → List (String × PVal)) :
    (diff_dict_collection t A B ks ser).map (fun a => (a.object_type, a.key)) =
    (diff_dict_collection_removed t B A ks ser).map (fun r => (r.object_type, r.key)) := by
  rw [diff_dict_collection, diff_dict_collection_removed, List.map_filterMap,
    List.map_filterMap]
  congr 1
  funext kv
  split <;> rfl

/-- Membership in the keys of a dictInsert. -/
theorem alookup_dictInsert_isSome {κ α : Type} [DecidableEq κ]
    (l : List (κ × α)) (k : κ) (v : α) (key : κ) :
    (alookup (dictInsert l k v) key).isSome ↔ key = k ∨ (alookup l key).isSome := by
  induction l with
  | nil =>
    by_cases h : k = key <;> simp [dictInsert, alookup, h, eq_comm]
  | cons hd tl ih =>
    rw [dictInsert]
    by_cases h : hd.1 = k
    · rw [if_pos h, alookup]
      by_cases h2 : k = key
      · simp [h2]
      · rw [if_neg h2, alookup, if_neg (h.symm ▸ fun h' => h2 (h ▸ h'))]
        constructor
        · exact Or.inr
        · rintro (h1 | h1)
          · exact absurd h1.symm h2
          · exact h1
    · rw [if_neg h, alookup, alookup]
      by_cases h2 : hd.1 = key
      · simp [h2]
      · rw [if_neg h2, if_neg h2]
        exact ih

/-- Keys of the name-keyed grid view are exactly the grid names. -/
theorem gridsByName_isSome (l : List GridLine) (n : String) :
    (alookup (gridsByName l) n).isSome ↔ n ∈ l.map GridLine.name := by
  have aux : ∀ (l : List GridLine) (acc : List (String × GridLine)) (n : String),
      (alookup (l.foldl (fun d g => dictInsert d g.name g) acc) n).isSome ↔
      (alookup acc n).isSome ∨ n ∈ l.map GridLine.name := by
    intro l
    induction l with
    | nil => simp
    | cons g tl ih =>
      intro acc n
      rw [List.foldl_cons, ih, alookup_dictInsert_isSome, List.map_cons, List.mem_cons]
      tauto
  rw [gridsByName, aux]
  simp [alookup]

/-- Value of a successful lookup is a binding of the list. -/
theorem alookup_mem {κ α : Type} [DecidableEq κ] {l : List (κ × α)} {k : κ} {v : α}
    (h : alookup l k = some v) : (k, v) ∈ l := by
  induction l with
  | nil => exact Option.noConfusion h
  | cons hd tl ih =>
    rw [alookup] at h
    split at h
    · rw [Option.some.injEq] at h
      rename_i heq
      exact List.mem_cons.mpr (Or.inl (Prod.ext_iff.mpr ⟨heq.symm, h.symm⟩))
    · exact List.mem_cons.mpr (Or.inr (ih h))

/-- Grid added pairs: membership characterization. -/
theorem grid_added_mem (t : String) (A B : List GridLine) (p : String × String) :
    p ∈ (diff_list_collection t A B).map (fun a => (a.object_type, a.key)) ↔
    p.1 = t ∧ p.2 ∈ B.map GridLine.name ∧ p.2 ∉ A.map GridLine.name := by
  rw [diff_list_collection, List.map_filterMap]
  simp only [List.mem_filterMap]
  constructor
  · rintro ⟨g, hg, hsome⟩
    split at hsome
    · simp only [Option.map_some', Option.some.injEq] at hsome
      subst hsome
      refine ⟨rfl, List.mem_map.mpr ⟨g, hg, rfl⟩, ?_⟩
      intro hmem
      rename_i hnone
      rw [Option.isNone_iff_eq_none] at hnone
      have := (gridsByName_isSome A g.name).mpr hmem
      rw [hnone] at this
      simp at this
    · exact Option.noConfusion hsome
  · rintro ⟨hp1, hp2, hp3⟩
    obtain ⟨g, hg, hgname⟩ := List.mem_map.mp hp2
    refine ⟨g, hg, ?_⟩
    have hnone : (alookup (gridsByName A) g.name).isNone := by
      rw [Option.isNone_iff_eq_none]
      cases h : alookup (gridsByName A) g.name with
      | none => rfl
      | some v =>
        exfalso
        exact hp3 (hgname ▸ (gridsByName_isSome A g.name).mp (by rw [h]; rfl))
    rw [if_pos hnone]
    simp only [Option.map_some', Option.some.injEq]
    exact Prod.ext_iff.mpr ⟨hp1.symm, hgname⟩

/-- Grid removed pairs: membership characterization (the removed pass
    walks the deduplicated name view, so membership is the same set). -/
theorem grid_removed_mem (t : String) (A B : List GridLine) (p : String × String) :
    p ∈ (diff_list_collection_removed t B A).map (fun r => (r.object_type, r.key)) ↔
    p.1 = t ∧ p.2 ∈ B.map GridLine.name ∧ p.2 ∉ A.map GridLine.name := by
  rw [diff_list_collection_removed, List.map_filterMap]
  simp only [List.mem_filterMap]
  constructor
  · rintro ⟨kv, hkv, hsome⟩
    split at hsome
    · simp only [Option.map_some', Option.some.injEq] at hsome
      subst hsome
      refine ⟨rfl, ?_, ?_⟩
      · have hk : kv.1 ∈ (gridsByName B).map Prod.fst := List.mem_map.mpr ⟨kv, hkv, rfl⟩
        exact (gridsByName_isSome B kv.1).mp ((alookup_isSome _ _).mpr hk)
      · intro hmem
        rename_i hnone
        rw [Option.isNone_iff_eq_none] at hnone
        have := (gridsByName_isSome A kv.1).mpr hmem
        rw [hnone] at this
        simp at this
    · exact Option.noConfusion hsome
  · rintro ⟨hp1, hp2, hp3⟩
    have hsome := (gridsByName_isSome B p.2).mpr hp2
    rw [Option.isSome_iff_exists] at hsome
    obtain ⟨g, hg⟩ := hsome
    refine ⟨(p.2, g), alookup_mem hg, ?_⟩
    have hnone : (alookup (gridsByName A) p.2).isNone := by
      rw [Option.isNone_iff_eq_none]
      cases h : alookup (gridsByName A) p.2 with
      | none => rfl
      | some v =>
        exfalso
        exact hp3 ((gridsByName_isSome A p.2).mp (by rw [h]; rfl))
    rw [if_pos hnone]
    simp only [Option.map_some', Option.some.injEq]
    exact Prod.ext_iff.mpr ⟨hp1.symm, rfl⟩

/-- Diffing a dict collection against itself adds nothing. -/
theorem diag_added {κ α : Type} [DecidableEq κ] (t : String) (A : List (κ × α))
    (ks : κ → String) (ser : α → List (String × PVal)) :
    diff_dict_collection t A A ks ser = [] := by
  rw [diff_dict_collection, List.filterMap_eq_nil]
  intro kv hkv
  have hsome : (alookup A kv.1).isSome :=
    (alookup_isSome _ _).mpr (List.mem_map.mpr ⟨kv, hkv, rfl⟩)
  rw [if_neg]
  intro hnone
  rw [Option.isNone_iff_eq_none] at hnone
  rw [hnone] at hsome
  simp at hsome

/-- Diffing a dict collection against itself removes nothing. -/
theorem diag_removed {κ α : Type} [DecidableEq κ] (t : String) (A : List (κ × α))
    (ks : κ → String) (ser : α → List (String × PVal)) :
    diff_dict_collection_removed t A A ks ser = [] := by
  rw [diff_dict_collection_removed, List.filterMap_eq_nil]
  intro kv hkv
  have hsome : (alookup A kv.1).isSome :=
    (alookup_isSome _ _).mpr (List.mem_map.mpr ⟨kv, hkv, rfl⟩)
  rw [if_neg]
  intro hnone
  rw [Option.isNone_iff_eq_none] at hnone
  rw [hnone] at hsome
  simp at hsome

/-- The grid list diffed against itself adds nothing. -/
theorem diag_grid_added (t : String) (A : List GridLine) :
    diff_list_collection t A A = [] := by
  rw [diff_list_collection, List.filterMap_eq_nil]
  intro g hg
  have hsome : (alookup (gridsByName A) g.name).isSome :=
    (gridsByName_isSome A g.name).mpr (List.mem_map.mpr ⟨g, hg, rfl⟩)
  rw [if_neg]
  intro hnone
  rw [Option.isNone_iff_eq_none] at hnone
  rw [hnone] at hsome
  simp at hsome

/-- The grid list diffed against itself removes nothing. -/
theorem diag_grid_removed (t : String) (A : List GridLine) :
    diff_list_collection_removed t A A = [] := by
  rw [diff_list_collection_removed, List.filterMap_eq_nil]
  intro kv hkv
  have hk : kv.1 ∈ (gridsByName A).map Prod.fst := List.mem_map.mpr ⟨kv, hkv, rfl⟩
  have hsome : (alookup (gridsByName A) kv.1).isSome := by
    rw [alookup_isSome]
    exact hk
  rw [if_neg]
  intro hnone
  rw [Option.isNone_iff_eq_none] at hnone
  rw [hnone] at hsome
  simp at hsome

/-- Comparing a field list against itself yields no changes when the
    field names are unique (as every serializer guarantees). -/
theorem compare_objects_self (F : List (String × PVal)) (tol : List (String × ℚ))
    (h : (F.map Prod.fst).Nodup) : compare_objects F F tol = [] := by
  rw [compare_objects, List.filterMap_eq_nil]
  intro fv hfv
  unfold compareFieldStep
  split
  · rfl
  · rw [alookup_of_mem_nodup hfv h]
    dsimp only [Option.getD_some]
    rw [if_pos (pvalEq_refl fv.2)]

/-- Field names of every serializer are unique. -/
theorem ser_nodup_story : ∀ v : Story, ((storyFields v).map Prod.fst).Nodup := by
  intro v; simp [storyFields]

theorem ser_nodup_joint : ∀ v : Joint, ((jointFields v).map Prod.fst).Nodup := by
  intro v; simp [jointFields]

theorem ser_nodup_frame : ∀ v : FrameObject, ((frameObjectFields v).map Prod.fst).Nodup := by
  intro v; simp [frameObjectFields]

theorem ser_nodup_material : ∀ v : Material, ((materialFields v).map Prod.fst).Nodup := by
  intro v; simp [materialFields]

theorem ser_nodup_frame_section : ∀ v : FrameSection,
    ((frameSectionFields v).map Prod.fst).Nodup := by
  intro v; simp [frameSectionFields]

theorem ser_nodup_load_pattern : ∀ v : LoadPattern,
    ((loadPatternFields v).map Prod.fst).Nodup := by
  intro v; simp [loadPatternFields]

theorem ser_nodup_load_case : ∀ v : LoadCase, ((loadCaseFields v).map Prod.fst).Nodup := by
  intro v; simp [loadCaseFields]

theorem ser_nodup_load_combo : ∀ v : LoadCombo, ((loadComboFields v).map Prod.fst).Nodup := by
  intro v; simp [loadComboFields]

theorem ser_nodup_frame_assignment : ∀ v : FrameAssignment,
    ((frameAssignmentFields v).map Prod.fst).Nodup := by
  intro v; simp [frameAssignmentFields]

theorem ser_nodup_area_assignment : ∀ v : AreaAssignment,
    ((areaAssignmentFields v).map Prod.fst).Nodup := by
  intro v; simp [areaAssignmentFields]

/-- A dict collection compared against itself yields no modified
    records. -/
theorem diag_modified {κ α : Type} [DecidableEq κ] (t : String) (A : List (κ × α))
    (tol : List (String × ℚ)) (ks : κ → String) (ser : α → List (String × PVal))
    (loc : α → Option LocationInfo) (hA : (A.map Prod.fst).Nodup)
    (hser : ∀ v, ((ser v).map Prod.fst).Nodup) :
    diff_dict_collection_modified t A A tol ks ser loc = [] := by
  rw [diff_dict_collection_modified, List.filterMap_eq_nil]
  intro kv hkv
  rw [alookup_of_mem_nodup hkv hA]
  dsimp only
  rw [compare_objects_self _ _ (hser kv.2)]
  rfl

/-- Line sets of identical lists are equal. -/
theorem lineSetEq_refl (a : List String) : lineSetEq a a = true := by
  simp [lineSetEq, List.all_eq_true]

/-- Raw sections diffed against themselves yield no modified records. -/
theorem diag_raw_modified (A : List (String × List String))
    (hA : (A.map Prod.fst).Nodup) : diff_raw_sections_modified A A = [] := by
  rw [diff_raw_sections_modified, List.filterMap_eq_nil]
  intro kv hkv
  rw [alookup_of_mem_nodup hkv hA]
  dsimp only
  rw [if_pos (lineSetEq_refl kv.2)]

/-- C2: over every collection, the (object_type, key) pairs added by
    diff_models A B are exactly the pairs removed by diff_models B A (and
    vice versa), and diffing a well-formed snapshot against itself yields
    empty added, removed and modified lists. -/
theorem c2_diff_symmetry (A B : EtabsModel) (tol? : Option (List (String × ℚ)))
    (hA : ModelWF A) :
    (∀ p, p ∈ diffAddedPairs (diff_models A B tol?) ↔
      p ∈ diffRemovedPairs (diff_models B A tol?)) ∧
    (∀ p, p ∈ diffRemovedPairs (diff_models A B tol?) ↔
      p ∈ diffAddedPairs (diff_models B A tol?)) ∧
    (diff_models A A tol?).added = [] ∧ (diff_models A A tol?).removed = [] ∧
    (diff_models A A tol?).modified = [] := by
  obtain ⟨h1, h2, h3, h4, h5, h6, h7, h8, h9, h10, h11⟩ := hA
  refine ⟨?_, ?_, ?_, ?_, ?_⟩
  · intro p
    dsimp only [diffAddedPairs, diffRemovedPairs, diff_models, diff_raw_sections,
      diff_raw_sections_removed]
    simp only [List.map_append, List.mem_append]
    rw [added_removed_swap "story" A.stories B.stories id storyFields,
      added_removed_swap "joint" A.joints B.joints id jointFields,
      added_removed_swap "frame" A.frames B.frames id frameObjectFields,
      added_removed_swap "material" A.materials B.materials id materialFields,
      added_removed_swap "frame_section" A.frame_sections B.frame_sections id frameSectionFields,
      added_removed_swap "load_pattern" A.load_patterns B.load_patterns id loadPatternFields,
      added_removed_swap "load_case" A.load_cases B.load_cases id loadCaseFields,
      added_removed_swap "load_combo" A.load_combos B.load_combos id loadComboFields,
      added_removed_swap "frame_assignment" A.frame_assignments B.frame_assignments pyStrOfPair frameAssignmentFields,
      added_removed_swap "area_assignment" A.area_assignments B.area_assignments pyStrOfPair areaAssignmentFields,
      added_removed_swap "raw_section" A.raw_sections B.raw_sections id rawSectionData,
      (grid_added_mem "grid" A.grids B.grids p).trans
        (grid_removed_mem "grid" A.grids B.grids p).symm]
  · intro p
    dsimp only [diffAddedPairs, diffRemovedPairs, diff_models, diff_raw_sections,
      diff_raw_sections_removed]
    simp only [List.map_append, List.mem_append]
    rw [← added_removed_swap "story" B.stories A.stories id storyFields,
      ← added_removed_swap "joint" B.joints A.joints id jointFields,
      ← added_removed_swap "frame" B.frames A.frames id frameObjectFields,
      ← added_removed_swap "material" B.materials A.materials id materialFields,
      ← added_removed_swap "frame_section" B.frame_sections A.frame_sections id frameSectionFields,
      ← added_removed_swap "load_pattern" B.load_patterns A.load_patterns id loadPatternFields,
      ← added_removed_swap "load_case" B.load_cases A.load_cases id loadCaseFields,
      ← added_removed_swap "load_combo" B.load_combos A.load_combos id loadComboFields,
      ← added_removed_swap "frame_assignment" B.frame_assignments A.frame_assignments pyStrOfPair frameAssignmentFields,
      ← added_removed_swap "area_assignment" B.area_assignments A.area_assignments pyStrOfPair areaAssignmentFields,
      ← added_removed_swap "raw_section" B.raw_sections A.raw_sections id rawSectionData,
      (grid_removed_mem "grid" B.grids A.grids p).trans
        (grid_added_mem "grid" B.grids A.grids p).symm]
  · dsimp only [diff_models, diff_raw_sections]
    rw [diag_grid_added]
    simp only [diag_added, List.append_nil, List.nil_append]
  · dsimp only [diff_models, diff_raw_sections_removed]
    rw [diag_grid_removed]
    simp only [diag_removed, List.append_nil, List.nil_append]
  · dsimp only [diff_models]
    rw [diag_modified "story" A.stories _ id storyFields _ h1 ser_nodup_story,
      diag_modified "joint" A.joints _ id jointFields _ h2 ser_nodup_joint,
      diag_modified "frame" A.frames _ id frameObjectFields _ h3 ser_nodup_frame,
      diag_modified "material" A.materials _ id materialFields _ h4 ser_nodup_material,
      diag_modified "frame_section" A.frame_sections _ id frameSectionFields _ h5 ser_nodup_frame_section,
      diag_modified "load_pattern" A.load_patterns _ id loadPatternFields _ h6 ser_nodup_load_pattern,
      diag_modified "load_case" A.load_cases _ id loadCaseFields _ h7 ser_nodup_load_case,
      diag_modified "load_combo" A.load_combos _ id loadComboFields _ h8 ser_nodup_load_combo,
      diag_modified "frame_assignment" A.frame_assignments _ pyStrOfPair frameAssignmentFields _ h9 ser_nodup_frame_assignment,
      diag_modified "area_assignment" A.area_assignments _ pyStrOfPair areaAssignmentFields _ h10 ser_nodup_area_assignment,
      diag_raw_modified A.raw_sections h11]
    simp

/-- C2 witness: the symmetry theorem applied to the concrete one-story
    and empty snapshots. -/
theorem c2_diff_symmetry_witness :
    (("story", "S1") ∈ diffRemovedPairs (diff_models c2ModelA c2ModelB none)) ∧
    (diff_models c2ModelA c2ModelA none).added = [] ∧
    (diff_models c2ModelA c2ModelA none).modified = [] := by
  have h := c2_diff_symmetry c2ModelA c2ModelB none (by decide)
  exact ⟨(h.2.1 ("story", "S1")).mpr (by decide), h.2.2.1, h.2.2.2.2⟩

/-- Structure extensionality for LocationInfo. -/
theorem locationInfo_ext {a b : LocationInfo} (h1 : a.story = b.story)
    (h2 : a.grid_x = b.grid_x) (h3 : a.grid_y = b.grid_y)
    (h4 : a.grid_x_span = b.grid_x_span) (h5 : a.grid_y_span = b.grid_y_span) :
    a = b := by
  cases a; cases b; simp_all

/-- Structure extensionality for FrameObject. -/
theorem frameObject_ext {a b : FrameObject} (h1 : a.name = b.name)
    (h2 : a.joint_i = b.joint_i) (h3 : a.joint_j = b.joint_j)
    (h4 : a.section_ = b.section_) (h5 : a.story = b.story)
    (h6 : a.object_type = b.object_type) (h7 : a.location = b.location)
    (h8 : a.raw_fields = b.raw_fields) : a = b := by
  cases a; cases b; simp_all

/-- Joint tagging only depends on the stories and grids of the model and
    overwrites fields it does not read: applying it twice (possibly
    through a model with equal stories and grids) equals applying it
    once. -/
theorem tag_joint_location_idem (j : Joint) (m m' : EtabsModel) (tol : ℚ)
    (hs : m'.stories = m.stories) (hg : m'.grids = m.grids) :
    tag_joint_location (tag_joint_location j m tol) m' tol =
    tag_joint_location j m tol := by
  obtain ⟨n, x, y, z, st, gx, gy⟩ := j
  simp [tag_joint_location, hs, hg]

/-- Projection of the story field through the location updates. -/
theorem applyFrameLocUpdates_story (M : EtabsModel) (ji jj : Joint) (f : FrameObject) :
    (applyFrameLocUpdates M ji jj f).story =
    (match frameStoryUpdate M ji jj with
     | some s => some s
     | none => f.story) := rfl

theorem applyFrameLocUpdates_loc_story (M : EtabsModel) (ji jj : Joint) (f : FrameObject) :
    (applyFrameLocUpdates M ji jj f).location.story =
    (match frameStoryUpdate M ji jj with
     | some s => some s
     | none => f.location.story) := rfl

theorem applyFrameLocUpdates_loc_grid_x (M : EtabsModel) (ji jj : Joint) (f : FrameObject) :
    (applyFrameLocUpdates M ji jj f).location.grid_x =
    (if optStrTruthy ji.grid_x && decide (ji.grid_x = jj.grid_x) then ji.grid_x
     else f.location.grid_x) := rfl

theorem applyFrameLocUpdates_loc_grid_y (M : EtabsModel) (ji jj : Joint) (f : FrameObject) :
    (applyFrameLocUpdates M ji jj f).location.grid_y =
    (if optStrTruthy ji.grid_y && decide (ji.grid_y = jj.grid_y) then ji.grid_y
     else f.location.grid_y) := rfl

theorem applyFrameLocUpdates_loc_grid_x_span (M : EtabsModel) (ji jj : Joint) (f : FrameObject) :
    (applyFrameLocUpdates M ji jj f).location.grid_x_span =
    (match ji.grid_x, jj.grid_x with
     | some gi, some gj =>
       if gi ≠ "" && gj ≠ "" && gi ≠ gj then some (gi, gj) else f.location.grid_x_span
     | _, _ => f.location.grid_x_span) := rfl

theorem applyFrameLocUpdates_loc_grid_y_span (M : EtabsModel) (ji jj : Joint) (f : FrameObject) :
    (applyFrameLocUpdates M ji jj f).location.grid_y_span =
    (match ji.grid_y, jj.grid_y with
     | some gi, some gj =>
       if gi ≠ "" && gj ≠ "" && gi ≠ gj then some (gi, gj) else f.location.grid_y_span
     | _, _ => f.location.grid_y_span) := rfl

/-- The location updates are idempotent: a failed condition keeps a field
    that the first application already kept, and a met condition writes
    the same value twice. -/
theorem applyFrameLocUpdates_idem (M : EtabsModel) (ji jj : Joint) (f : FrameObject) :
    applyFrameLocUpdates M ji jj (applyFrameLocUpdates M ji jj f) =
    applyFrameLocUpdates M ji jj f := by
  refine frameObject_ext rfl rfl rfl rfl ?_ rfl ?_ rfl
  · rw [applyFrameLocUpdates_story, applyFrameLocUpdates_story]
    cases frameStoryUpdate M ji jj <;> rfl
  · refine locationInfo_ext ?_ ?_ ?_ ?_ ?_
    · rw [applyFrameLocUpdates_loc_story, applyFrameLocUpdates_loc_story]
      cases frameStoryUpdate M ji jj <;> rfl
    · rw [applyFrameLocUpdates_loc_grid_x, applyFrameLocUpdates_loc_grid_x]
      cases hb : optStrTruthy ji.grid_x && decide (ji.grid_x = jj.grid_x) <;> simp
    · rw [applyFrameLocUpdates_loc_grid_y, applyFrameLocUpdates_loc_grid_y]
      cases hb : optStrTruthy ji.grid_y && decide (ji.grid_y = jj.grid_y) <;> simp
    · rw [applyFrameLocUpdates_loc_grid_x_span, applyFrameLocUpdates_loc_grid_x_span]
      cases ji.grid_x <;> cases jj.grid_x <;> try rfl
      rename_i gi gj
      by_cases hb : (gi ≠ "" && gj ≠ "" && gi ≠ gj : Bool) = true
      · simp only [if_pos hb]
      · simp only [if_neg hb]
    · rw [applyFrameLocUpdates_loc_grid_y_span, applyFrameLocUpdates_loc_grid_y_span]
      cases ji.grid_y <;> cases jj.grid_y <;> try rfl
      rename_i gi gj
      by_cases hb : (gi ≠ "" && gj ≠ "" && gi ≠ gj : Bool) = true
      · simp only [if_pos hb]
      · simp only [if_neg hb]

/-- Classification writes only the object type. -/
theorem classify_preserves (f : FrameObject) (M : EtabsModel) :
    (classify_frame_object f M).name = f.name ∧
    (classify_frame_object f M).joint_i = f.joint_i ∧
    (classify_frame_object f M).joint_j = f.joint_j ∧
    (classify_frame_object f M).section_ = f.section_ ∧
    (classify_frame_object f M).story = f.story ∧
    (classify_frame_object f M).location = f.location ∧
    (classify_frame_object f M).raw_fields = f.raw_fields := by
  unfold classify_frame_object
  split
  · dsimp only
    split
    · exact ⟨rfl, rfl, rfl, rfl, rfl, rfl, rfl⟩
    · exact ⟨rfl, rfl, rfl, rfl, rfl, rfl, rfl⟩
  · exact ⟨rfl, rfl, rfl, rfl, rfl, rfl, rfl⟩

/-- The classified object type depends only on the endpoint names and
    the section name of the frame. -/
theorem classify_object_type_congr (M : EtabsModel) (f g : FrameObject)
    (h1 : g.joint_i = f.joint_i) (h2 : g.joint_j = f.joint_j)
    (h3 : g.section_ = f.section_) :
    (classify_frame_object g M).object_type =
    (classify_frame_object f M).object_type := by
  unfold classify_frame_object
  rw [h1, h2, h3]
  cases alookup M.joints f.joint_i <;> cases alookup M.joints f.joint_j <;>
    try rfl
  dsimp only
  split <;> rfl

/-- Classification equals overwriting the object type of the input. -/
theorem classify_as_update (f : FrameObject) (M : EtabsModel) :
    classify_frame_object f M =
    { f with object_type := (classify_frame_object f M).object_type } := by
  unfold classify_frame_object
  split
  · dsimp only
    split <;> rfl
  · rfl

/-- Classifying twice equals classifying once. -/
theorem classify_classify (f : FrameObject) (M : EtabsModel) :
    classify_frame_object (classify_frame_object f M) M =
    classify_frame_object f M := by
  obtain ⟨hn, hji, hjj, hsec, hst, hloc, hraw⟩ := classify_preserves f M
  have hot := classify_object_type_congr M f (classify_frame_object f M) hji hjj hsec
  calc classify_frame_object (classify_frame_object f M) M
      = { classify_frame_object f M with
          object_type := (classify_frame_object (classify_frame_object f M) M).object_type } :=
        classify_as_update _ M
    _ = { classify_frame_object f M with
          object_type := (classify_frame_object f M).object_type } := by rw [hot]
    _ = classify_frame_object f M := rfl

/-- Joint tagging reads only the stories and grids of the model. -/
theorem tag_joint_location_env (j : Joint) (M M' : EtabsModel) (tol : ℚ)
    (hs : M'.stories = M.stories) (hg : M'.grids = M.grids) :
    tag_joint_location j M' tol = tag_joint_location j M tol := by
  unfold tag_joint_location
  rw [hs, hg]

/-- Frame location tagging reads only the joints and stories of the
    model. -/
theorem tag_frame_location_env (f : FrameObject) (M M' : EtabsModel) (tol : ℚ)
    (hj : M'.joints = M.joints) (hs : M'.stories = M.stories) :
    tag_frame_location f M' tol = tag_frame_location f M tol := by
  unfold tag_frame_location applyFrameLocUpdates frameStoryUpdate
  rw [hj, hs]

/-- Classification reads only the joints and frame sections of the
    model. -/
theorem classify_env (f : FrameObject) (M M' : EtabsModel)
    (hj : M'.joints = M.joints) (hfs : M'.frame_sections = M.frame_sections) :
    classify_frame_object f M' = classify_frame_object f M := by
  unfold classify_frame_object
  rw [hj, hfs]

/-- The location updates depend only on the location of the frame for
    the location field they produce. -/
theorem applyFrameLocUpdates_location_congr (M : EtabsModel) (ji jj : Joint)
    {x y : FrameObject} (e : x.location = y.location) :
    (applyFrameLocUpdates M ji jj x).location =
    (applyFrameLocUpdates M ji jj y).location := by
  refine locationInfo_ext ?_ ?_ ?_ ?_ ?_
  · rw [applyFrameLocUpdates_loc_story, applyFrameLocUpdates_loc_story, e]
  · rw [applyFrameLocUpdates_loc_grid_x, applyFrameLocUpdates_loc_grid_x, e]
  · rw [applyFrameLocUpdates_loc_grid_y, applyFrameLocUpdates_loc_grid_y, e]
  · rw [applyFrameLocUpdates_loc_grid_x_span, applyFrameLocUpdates_loc_grid_x_span, e]
  · rw [applyFrameLocUpdates_loc_grid_y_span, applyFrameLocUpdates_loc_grid_y_span, e]

/-- Endpoint names survive the location updates. -/
theorem applyFrameLocUpdates_joint_i (M : EtabsModel) (ji jj : Joint) (f : FrameObject) :
    (applyFrameLocUpdates M ji jj f).joint_i = f.joint_i := rfl

theorem applyFrameLocUpdates_joint_j (M : EtabsModel) (ji jj : Joint) (f : FrameObject) :
    (applyFrameLocUpdates M ji jj f).joint_j = f.joint_j := rfl

/-- Frame location tagging is idempotent. -/
theorem tag_frame_location_idem (f : FrameObject) (M : EtabsModel) (tol : ℚ) :
    tag_frame_location (tag_frame_location f M tol) M tol =
    tag_frame_location f M tol := by
  unfold tag_frame_location
  cases h1 : alookup M.joints f.joint_i with
  | none =>
    dsimp only
    rw [h1]
  | some ji =>
    cases h2 : alookup M.joints f.joint_j with
    | none =>
      dsimp only
      rw [h1, h2]
    | some jj =>
      dsimp only
      rw [applyFrameLocUpdates_joint_i, applyFrameLocUpdates_joint_j, h1, h2]
      exact applyFrameLocUpdates_idem M ji jj f

/-- Location tagging of a classified frame equals classifying the
    location-tagged frame: tagging reads no field classification writes
    and conversely. -/
theorem tagLoc_classify_comm (g : FrameObject) (M : EtabsModel) (tol : ℚ) :
    tag_frame_location (classify_frame_object g M) M tol =
    classify_frame_object (tag_frame_location g M tol) M := by
  obtain ⟨hn, hji, hjj, hsec, hst, hloc, hraw⟩ := classify_preserves g M
  unfold tag_frame_location
  rw [hji, hjj]
  cases h1 : alookup M.joints g.joint_i with
  | none => rfl
  | some ji =>
    cases h2 : alookup M.joints g.joint_j with
    | none => rfl
    | some jj =>
      show applyFrameLocUpdates M ji jj (classify_frame_object g M) =
        classify_frame_object (applyFrameLocUpdates M ji jj g) M
      obtain ⟨kn, kji, kjj, ksec, kst, kloc, kraw⟩ :=
        classify_preserves (applyFrameLocUpdates M ji jj g) M
      refine frameObject_ext ?_ ?_ ?_ ?_ ?_ ?_ ?_ ?_
      · exact hn.trans kn.symm
      · exact hji.trans kji.symm
      · exact hjj.trans kjj.symm
      · exact hsec.trans ksec.symm
      · rw [applyFrameLocUpdates_story, kst, applyFrameLocUpdates_story, hst]
      · have := classify_object_type_congr M g (applyFrameLocUpdates M ji jj g) rfl rfl rfl
        exact this.symm
      · rw [kloc]
        exact applyFrameLocUpdates_location_congr M ji jj hloc
      · exact hraw.trans kraw.symm


/-- Structure extensionality for EtabsModel. -/
theorem etabsModel_ext {a b : EtabsModel} (h1 : a.program_info = b.program_info)
    (h2 : a.stories = b.stories) (h3 : a.grids = b.grids) (h4 : a.joints = b.joints)
    (h5 : a.frames = b.frames) (h6 : a.materials = b.materials)
    (h7 : a.frame_sections = b.frame_sections) (h8 : a.load_patterns = b.load_patterns)
    (h9 : a.load_cases = b.load_cases) (h10 : a.load_combos = b.load_combos)
    (h11 : a.frame_assignments = b.frame_assignments)
    (h12 : a.area_assignments = b.area_assignments)
    (h13 : a.raw_sections = b.raw_sections) : a = b := by
  cases a; cases b; simp_all

/-- Tagging then classifying a frame twice equals doing it once. -/
theorem tag_step_idem (M : EtabsModel) (tol : ℚ) (f : FrameObject) :
    classify_frame_object
      (tag_frame_location (classify_frame_object (tag_frame_location f M tol) M) M tol) M =
    classify_frame_object (tag_frame_location f M tol) M := by
  rw [tagLoc_classify_comm, tag_frame_location_idem, classify_classify]

/-- C7: the location tagger is idempotent: tagging an already tagged
    snapshot reproduces it, with all derived fields (joint story and grid
    tags, frame story, location, object type) identical. -/
theorem c7_tagging_idempotent (m : EtabsModel) (tol : ℚ) :
    attach_story_and_grid_tags (attach_story_and_grid_tags m tol) tol =
    attach_story_and_grid_tags m tol := by
  set N := attach_story_and_grid_tags m tol with hN
  have hNj : N.joints = m.joints.map
      (fun kv : String × Joint => (kv.1, tag_joint_location kv.2 m tol)) := rfl
  have hJmap : N.joints.map
      (fun kv : String × Joint => (kv.1, tag_joint_location kv.2 N tol)) = N.joints := by
    rw [hNj, List.map_map]
    refine List.map_congr_left ?_
    intro kv _
    dsimp only [Function.comp]
    rw [tag_joint_location_idem kv.2 m N tol rfl rfl]
  refine etabsModel_ext rfl rfl rfl ?_ ?_ rfl rfl rfl rfl rfl rfl rfl rfl
  · show N.joints.map
      (fun kv : String × Joint => (kv.1, tag_joint_location kv.2 N tol)) = N.joints
    exact hJmap
  · show N.frames.map
      (fun kv : String × FrameObject =>
        (kv.1, classify_frame_object
          (tag_frame_location kv.2
            { N with joints := (N.joints.map
              (fun kv : String × Joint => (kv.1, tag_joint_location kv.2 N tol))) } tol)
          { N with joints := (N.joints.map
            (fun kv : String × Joint => (kv.1, tag_joint_location kv.2 N tol))) })) = N.frames
    rw [hJmap]
    have hNf : N.frames = m.frames.map
        (fun kv : String × FrameObject =>
          (kv.1, classify_frame_object
            (tag_frame_location kv.2
              { m with joints := (m.joints.map
                (fun kv : String × Joint => (kv.1, tag_joint_location kv.2 m tol))) } tol)
            { m with joints := (m.joints.map
              (fun kv : String × Joint => (kv.1, tag_joint_location kv.2 m tol))) })) := rfl
    have hFG : ∀ kv ∈ N.frames,
        (kv.1, classify_frame_object
          (tag_frame_location kv.2 { N with joints := N.joints } tol)
          { N with joints := N.joints }) =
        (kv.1, classify_frame_object
          (tag_frame_location kv.2
            { m with joints := (m.joints.map
              (fun kv : String × Joint => (kv.1, tag_joint_location kv.2 m tol))) } tol)
          { m with joints := (m.joints.map
            (fun kv : String × Joint => (kv.1, tag_joint_location kv.2 m tol))) }) := by
      intro kv _
      rw [tag_frame_location_env kv.2
          { m with joints := (m.joints.map
            (fun kv : String × Joint => (kv.1, tag_joint_location kv.2 m tol))) }
          { N with joints := N.joints } tol rfl rfl,
        classify_env _
          { m with joints := (m.joints.map
            (fun kv : String × Joint => (kv.1, tag_joint_location kv.2 m tol))) }
          { N with joints := N.joints } rfl rfl]
    rw [List.map_congr_left hFG, hNf, List.map_map]
    refine List.map_congr_left ?_
    intro kv _
    dsimp only [Function.comp]
    rw [tag_step_idem]

/-- Characterization of the running-best fold started from an already-seen
    entry: it returns the best of the remaining entries when that one is a
    strict improvement, and the start entry otherwise. -/
theorem runBest_from : ∀ (l : List (String × ℚ)) (b : String × ℚ),
    List.foldl (fun acc nd =>
      match acc with
      | none => some nd
      | some best => if nd.2 < best.2 then some nd else some best) (some b) l =
    (match runBest l with
     | none => some b
     | some c => if c.2 < b.2 then some c else some b) := by
  intro l
  induction l with
  | nil => intro b; rfl
  | cons e l ih =>
    intro b
    have hcons : runBest (e :: l) = List.foldl (fun acc nd =>
        match acc with
        | none => some nd
        | some best => if nd.2 < best.2 then some nd else some best) (some e) l := rfl
    rw [List.foldl_cons, hcons, ih e]
    dsimp only
    by_cases h : e.2 < b.2
    · rw [if_pos h, ih e]
      cases hr : runBest l with
      | none =>
        dsimp only
        rw [if_pos h]
      | some c =>
        dsimp only
        by_cases h2 : c.2 < e.2
        · rw [if_pos h2]
          dsimp only
          rw [if_pos (h2.trans h)]
        · rw [if_neg h2]
          dsimp only
          rw [if_pos h]
    · rw [if_neg h, ih b]
      cases hr : runBest l with
      | none =>
        dsimp only
        rw [if_neg h]
      | some c =>
        dsimp only
        by_cases h2 : c.2 < e.2
        · rw [if_pos h2]
        · rw [if_neg h2]
          dsimp only
          rw [if_neg (not_lt.mpr (le_trans (not_lt.mp h) (not_lt.mp h2))), if_neg h]

/-- The running-best loop of location.py computes exactly the
    first-nearest entry of the claim text. -/
theorem runBest_eq_spec : ∀ l : List (String × ℚ), runBest l = specFirstNearest l := by
  intro l
  induction l with
  | nil => rfl
  | cons e l ih =>
    have hcons : runBest (e :: l) = List.foldl (fun acc nd =>
        match acc with
        | none => some nd
        | some best => if nd.2 < best.2 then some nd else some best) (some e) l := rfl
    rw [hcons, runBest_from, ih, specFirstNearest]

/-- find_story_by_elevation always returns the first-nearest story; the
    tolerance test is vacuous because both branches return best_match. -/
theorem find_story_by_elevation_spec (z : ℚ) (stories : List (String × Story)) (tol : ℚ) :
    find_story_by_elevation z stories tol =
    Option.map Prod.fst
      (specFirstNearest (stories.map fun kv => (kv.1, |z - kv.2.elevation|))) := by
  unfold find_story_by_elevation
  rw [runBest_eq_spec]
  cases specFirstNearest (stories.map fun kv => (kv.1, |z - kv.2.elevation|)) with
  | none => rfl
  | some b =>
    obtain ⟨n, d⟩ := b
    dsimp only
    rw [ite_self]
    rfl

/-- find_grid_line returns the first-nearest grid line on the requested
    axis exactly when its name is non-empty and its distance is within the
    tolerance, and none otherwise. -/
theorem find_grid_line_spec (coord : ℚ) (grids : List GridLine) (direction : String)
    (coord_tol : ℚ) :
    find_grid_line coord grids direction coord_tol =
    (match specFirstNearest ((grids.filter fun g => g.direction = direction).map
        fun g => (g.name, |coord - g.coord|)) with
     | none => none
     | some best => if best.1 ≠ "" ∧ best.2 ≤ coord_tol then some best.1 else none) := by
  unfold find_grid_line
  rw [runBest_eq_spec]
  cases specFirstNearest ((grids.filter fun g => g.direction = direction).map
      fun g => (g.name, |coord - g.coord|)) with
  | none => rfl
  | some b =>
    obtain ⟨n, d⟩ := b
    dsimp only
    by_cases h1 : n = ""
    · subst h1
      simp [strTruthy]
    · by_cases h2 : d ≤ coord_tol
      · simp [strTruthy, h1, h2]
      · simp [strTruthy, h1, h2]

/-- Projections of tag_joint_location. -/
theorem tagJoint_story (j : Joint) (m : EtabsModel) (tol : ℚ) :
    (tag_joint_location j m tol).story = find_story_by_elevation j.z m.stories tol := rfl

theorem tagJoint_grid_x (j : Joint) (m : EtabsModel) (tol : ℚ) :
    (tag_joint_location j m tol).grid_x = find_grid_line j.x m.grids "X" tol := rfl

theorem tagJoint_grid_y (j : Joint) (m : EtabsModel) (tol : ℚ) :
    (tag_joint_location j m tol).grid_y = find_grid_line j.y m.grids "Y" tol := rfl

theorem tagJoint_z (j : Joint) (m : EtabsModel) (tol : ℚ) :
    (tag_joint_location j m tol).z = j.z := rfl

theorem tagJoint_x (j : Joint) (m : EtabsModel) (tol : ℚ) :
    (tag_joint_location j m tol).x = j.x := rfl

theorem tagJoint_y (j : Joint) (m : EtabsModel) (tol : ℚ) :
    (tag_joint_location j m tol).y = j.y := rfl

/-- C5 (amended): in a tagged snapshot every joint's story is the story
    whose elevation is first-nearest the joint's Z — no story is ever
    rejected for distance — while the grid tag on each axis is the
    first-nearest grid line on that axis exactly when its distance is
    within the coordinate tolerance AND its name is non-empty; a
    within-tolerance nearest grid line whose name is empty yields none,
    contrary to the original claim. -/
theorem c5_joint_tagging (m : EtabsModel) (tol : ℚ) (k : String) (j : Joint)
    (h : (k, j) ∈ (attach_story_and_grid_tags m tol).joints) :
    j.story = Option.map Prod.fst
      (specFirstNearest (m.stories.map fun s => (s.1, |j.z - s.2.elevation|))) ∧
    j.grid_x = (match specFirstNearest ((m.grids.filter fun g => g.direction = "X").map
        fun g => (g.name, |j.x - g.coord|)) with
      | none => none
      | some best => if best.1 ≠ "" ∧ best.2 ≤ tol then some best.1 else none) ∧
    j.grid_y = (match specFirstNearest ((m.grids.filter fun g => g.direction = "Y").map
        fun g => (g.name, |j.y - g.coord|)) with
      | none => none
      | some best => if best.1 ≠ "" ∧ best.2 ≤ tol then some best.1 else none) := by
  have h' : (k, j) ∈ m.joints.map
      (fun kv : String × Joint => (kv.1, tag_joint_location kv.2 m tol)) := h
  rcases List.mem_map.mp h' with ⟨kv, _, heq⟩
  injection heq with h1 h2
  subst h2
  rw [tagJoint_story, tagJoint_grid_x, tagJoint_grid_y, tagJoint_z, tagJoint_x, tagJoint_y,
    find_story_by_elevation_spec, find_grid_line_spec, find_grid_line_spec]
  exact ⟨rfl, rfl, rfl⟩

/-- C5 counterexample to the original claim: in c5Model the joint sits at
    distance 0 from an X grid line — within the coordinate tolerance — yet
    its grid_x tag is none, because the grid line's name is empty. -/
theorem c5_grid_counterexample :
    (attach_story_and_grid_tags c5Model (1 / 1000)).joints =
      [("J1", ⟨"J1", 0, 0, 0, none, none, none⟩)] ∧
    c5Model.grids = [⟨"", 0, "X"⟩] ∧ |(0 : ℚ) - (0 : ℚ)| ≤ 1 / 1000 :=
  ⟨rfl, rfl, by norm_num⟩

/-- Witness for c5_joint_tagging on the two-story snapshot c5wModel. -/
theorem c5_joint_tagging_witness :
    (("J1", (⟨"J1", 0, 50, 30, some "S1", some "A", none⟩ : Joint)) ∈
        (attach_story_and_grid_tags c5wModel (1 / 1000)).joints) ∧
    ((some "S1" : Option String) = Option.map Prod.fst
        (specFirstNearest (c5wModel.stories.map fun s => (s.1, |(30 : ℚ) - s.2.elevation|))) ∧
      (some "A" : Option String) = (match specFirstNearest
          ((c5wModel.grids.filter fun g => g.direction = "X").map
            fun g => (g.name, |(0 : ℚ) - g.coord|)) with
        | none => none
        | some best => if best.1 ≠ "" ∧ best.2 ≤ (1 / 1000 : ℚ) then some best.1 else none) ∧
      (none : Option String) = (match specFirstNearest
          ((c5wModel.grids.filter fun g => g.direction = "Y").map
            fun g => (g.name, |(50 : ℚ) - g.coord|)) with
        | none => none
        | some best => if best.1 ≠ "" ∧ best.2 ≤ (1 / 1000 : ℚ) then some best.1 else none)) := by
  have h : (attach_story_and_grid_tags c5wModel (1 / 1000)).joints =
      [("J1", ⟨"J1", 0, 50, 30, some "S1", some "A", none⟩)] := by
    show [("J1", tag_joint_location ⟨"J1", 0, 50, 30, none, none, none⟩ c5wModel (1 / 1000))] = _
    simp [tag_joint_location, find_story_by_elevation, find_grid_line, runBest,
      c5wModel, strTruthy, List.filter_cons, List.foldl_cons]
    norm_num
  have hmem : ("J1", (⟨"J1", 0, 50, 30, some "S1", some "A", none⟩ : Joint)) ∈
      (attach_story_and_grid_tags c5wModel (1 / 1000)).joints := by
    rw [h]
    exact List.mem_singleton.mpr rfl
  exact ⟨hmem, c5_joint_tagging c5wModel (1 / 1000) "J1" _ hmem⟩

/-- Totality of classify_frame_object: the assigned object type is always
    one of the four type strings, and an unresolvable endpoint joint
    forces the generic "frame". -/
theorem classify_total (M1 : EtabsModel) (g : FrameObject) :
    ((classify_frame_object g M1).object_type = some "column" ∨
     (classify_frame_object g M1).object_type = some "beam" ∨
     (classify_frame_object g M1).object_type = some "brace" ∨
     (classify_frame_object g M1).object_type = some "frame") ∧
    ((alookup M1.joints g.joint_i = none ∨ alookup M1.joints g.joint_j = none) →
      (classify_frame_object g M1).object_type = some "frame") := by
  constructor
  · unfold classify_frame_object
    cases hli : alookup M1.joints g.joint_i with
    | none => right; right; right; rfl
    | some ji =>
      cases hlj : alookup M1.joints g.joint_j with
      | none => right; right; right; rfl
      | some jj =>
        dsimp only
        by_cases hdeg : |jj.x - ji.x| ^ 2 + |jj.y - ji.y| ^ 2 + |jj.z - ji.z| ^ 2
            < (1 / 1000000 : ℚ) ^ 2
        · rw [if_pos hdeg]
          right; right; right; rfl
        · rw [if_neg hdeg]
          dsimp only
          cases hsec : alookup M1.frame_sections g.section_ with
          | none =>
            dsimp only
            split_ifs <;> simp
          | some sec =>
            dsimp only
            split_ifs <;> simp
  · intro hun
    rcases hun with hu | hu
    · unfold classify_frame_object
      rw [hu]
    · unfold classify_frame_object
      cases hli : alookup M1.joints g.joint_i with
      | none => rfl
      | some ji => rw [hu]

/-- tag_frame_location never changes the endpoint names. -/
theorem tag_frame_location_joint_i (f : FrameObject) (M : EtabsModel) (tol : ℚ) :
    (tag_frame_location f M tol).joint_i = f.joint_i := by
  unfold tag_frame_location
  cases alookup M.joints f.joint_i <;> cases alookup M.joints f.joint_j <;> rfl

theorem tag_frame_location_joint_j (f : FrameObject) (M : EtabsModel) (tol : ℚ) :
    (tag_frame_location f M tol).joint_j = f.joint_j := by
  unfold tag_frame_location
  cases alookup M.joints f.joint_i <;> cases alookup M.joints f.joint_j <;> rfl

/-- A frame whose resolvable endpoints lie within the degenerate 1e-6
    length threshold — in particular a zero-length frame — classifies as
    the generic "frame". -/
theorem classify_degenerate (M1 : EtabsModel) (g : FrameObject) (ji jj : Joint)
    (hi : alookup M1.joints g.joint_i = some ji)
    (hj : alookup M1.joints g.joint_j = some jj)
    (hdeg : |jj.x - ji.x| ^ 2 + |jj.y - ji.y| ^ 2 + |jj.z - ji.z| ^ 2
      < (1 / 1000000 : ℚ) ^ 2) :
    (classify_frame_object g M1).object_type = some "frame" := by
  unfold classify_frame_object
  rw [hi, hj]
  dsimp only
  rw [if_pos hdeg]

/-- C10: after the Location Tagger runs, every frame's object_type is some
    of "column", "beam", "brace" or "frame"; a frame whose endpoint joints
    do not both resolve in the tagged snapshot carries the generic type
    "frame", as does a frame whose resolved endpoints are less than 1e-6
    apart — in particular a frame of zero length (coincident endpoint
    coordinates). -/
theorem c10_object_type_total (m : EtabsModel) (tol : ℚ) (k : String) (f : FrameObject)
    (h : (k, f) ∈ (attach_story_and_grid_tags m tol).frames) :
    (f.object_type = some "column" ∨ f.object_type = some "beam" ∨
     f.object_type = some "brace" ∨ f.object_type = some "frame") ∧
    ((alookup (attach_story_and_grid_tags m tol).joints f.joint_i = none ∨
      alookup (attach_story_and_grid_tags m tol).joints f.joint_j = none) →
      f.object_type = some "frame") ∧
    (∀ ji jj, alookup (attach_story_and_grid_tags m tol).joints f.joint_i = some ji →
      alookup (attach_story_and_grid_tags m tol).joints f.joint_j = some jj →
      |jj.x - ji.x| ^ 2 + |jj.y - ji.y| ^ 2 + |jj.z - ji.z| ^ 2
        < (1 / 1000000 : ℚ) ^ 2 →
      f.object_type = some "frame") ∧
    (∀ ji jj, alookup (attach_story_and_grid_tags m tol).joints f.joint_i = some ji →
      alookup (attach_story_and_grid_tags m tol).joints f.joint_j = some jj →
      jj.x = ji.x → jj.y = ji.y → jj.z = ji.z →
      f.object_type = some "frame") := by
  have h' : (k, f) ∈ m.frames.map (fun kv : String × FrameObject =>
      (kv.1, classify_frame_object
        (tag_frame_location kv.2
          { m with joints := m.joints.map fun (kv : String × Joint) =>
              (kv.1, tag_joint_location kv.2 m tol) } tol)
        { m with joints := m.joints.map fun (kv : String × Joint) =>
            (kv.1, tag_joint_location kv.2 m tol) })) := h
  rcases List.mem_map.mp h' with ⟨kv, _, heq⟩
  injection heq with h1 h2
  subst h2
  have hpi : (classify_frame_object
      (tag_frame_location kv.2
        { m with joints := m.joints.map fun (kv : String × Joint) =>
            (kv.1, tag_joint_location kv.2 m tol) } tol)
      { m with joints := m.joints.map fun (kv : String × Joint) =>
          (kv.1, tag_joint_location kv.2 m tol) }).joint_i
      = (tag_frame_location kv.2
        { m with joints := m.joints.map fun (kv : String × Joint) =>
            (kv.1, tag_joint_location kv.2 m tol) } tol).joint_i :=
    (classify_preserves _ _).2.1
  have hpj : (classify_frame_object
      (tag_frame_location kv.2
        { m with joints := m.joints.map fun (kv : String × Joint) =>
            (kv.1, tag_joint_location kv.2 m tol) } tol)
      { m with joints := m.joints.map fun (kv : String × Joint) =>
          (kv.1, tag_joint_location kv.2 m tol) }).joint_j
      = (tag_frame_location kv.2
        { m with joints := m.joints.map fun (kv : String × Joint) =>
            (kv.1, tag_joint_location kv.2 m tol) } tol).joint_j :=
    (classify_preserves _ _).2.2.1
  refine ⟨(classify_total _ _).1, ?_, ?_, ?_⟩
  · intro hun
    refine (classify_total _ _).2 ?_
    rcases hun with hu | hu
    · left
      rw [hpi] at hu
      exact hu
    · right
      rw [hpj] at hu
      exact hu
  · intro ji jj hi hj hdeg
    rw [hpi] at hi
    rw [hpj] at hj
    exact classify_degenerate _ _ ji jj hi hj hdeg
  · intro ji jj hi hj hx hy hz
    rw [hpi] at hi
    rw [hpj] at hj
    refine classify_degenerate _ _ ji jj hi hj ?_
    rw [hx, hy, hz]
    norm_num

/-- Witness for c10_object_type_total: the frame of c10Model, whose
    endpoints JX and JY resolve to no joint, is tagged "frame". -/
theorem c10_object_type_total_witness :
    (("F1", (⟨"F1", "JX", "JY", "S", none, some "frame", {}, []⟩ : FrameObject)) ∈
        (attach_story_and_grid_tags c10Model (1 / 1000)).frames) ∧
    (⟨"F1", "JX", "JY", "S", none, some "frame", {}, []⟩ : FrameObject).object_type
      = some "frame" := by
  have hmem : (("F1", (⟨"F1", "JX", "JY", "S", none, some "frame", {}, []⟩ : FrameObject)) ∈
      (attach_story_and_grid_tags c10Model (1 / 1000)).frames) :=
    List.mem_singleton.mpr rfl
  exact ⟨hmem, (c10_object_type_total c10Model (1 / 1000) "F1" _ hmem).2.1 (Or.inl rfl)⟩

/-- Keys of a dict assignment: unchanged when the key is present,
    appended otherwise. -/
theorem dictInsert_keys {α : Type} (l : List (String × α)) (k : String) (v : α) :
    (dictInsert l k v).map Prod.fst =
      if k ∈ l.map Prod.fst then l.map Prod.fst else l.map Prod.fst ++ [k] := by
  induction l with
  | nil => simp [dictInsert]
  | cons hd tl ih =>
    obtain ⟨k', w⟩ := hd
    by_cases h : k' = k
    · subst h
      simp [dictInsert]
    · simp only [dictInsert, if_neg h, List.map_cons, ih]
      by_cases hmem : k ∈ tl.map Prod.fst
      · rw [if_pos hmem, if_pos (List.mem_cons.mpr (Or.inr hmem))]
      · rw [if_neg hmem, if_neg ?_, List.cons_append]
        intro hc
        rcases List.mem_cons.mp hc with hc | hc
        · exact h hc.symm
        · exact hmem hc

/-- Dict assignment preserves key uniqueness. -/
theorem dictInsert_nodupKeys {α : Type} {l : List (String × α)} (k : String) (v : α)
    (h : (l.map Prod.fst).Nodup) : ((dictInsert l k v).map Prod.fst).Nodup := by
  rw [dictInsert_keys]
  by_cases hmem : k ∈ l.map Prod.fst
  · rw [if_pos hmem]; exact h
  · rw [if_neg hmem]
    simp [List.nodup_append, h, hmem]

/-- Every binding of a dict assignment is an old binding or the new
    one. -/
theorem mem_dictInsert {α : Type} (l : List (String × α)) (k : String) (v : α)
    (kv : String × α) (h : kv ∈ dictInsert l k v) : kv ∈ l ∨ kv = (k, v) := by
  induction l with
  | nil => simp [dictInsert] at h; right; exact h
  | cons hd tl ih =>
    obtain ⟨k', w⟩ := hd
    by_cases hk : k' = k
    · subst hk
      simp only [dictInsert, if_pos rfl] at h
      rcases List.mem_cons.mp h with h | h
      · right; exact h
      · left; exact List.mem_cons.mpr (Or.inr h)
    · simp only [dictInsert, if_neg hk] at h
      rcases List.mem_cons.mp h with h | h
      · left; exact List.mem_cons.mpr (Or.inl h)
      · rcases ih h with h | h
        · left; exact List.mem_cons.mpr (Or.inr h)
        · right; exact h

/-- Invariant preservation along a left fold. -/
theorem foldl_inv {σ α : Type} (P : σ → Prop) (step : σ → α → σ)
    (h : ∀ s a, P s → P (step s a)) :
    ∀ (l : List α) (s : σ), P s → P (l.foldl step s) := by
  intro l
  induction l with
  | nil => intro s hs; exact hs
  | cons a t ih => intro s hs; exact ih (step s a) (h s a hs)

/-- One segmenter step preserves the segmenter invariant: accumulated
    keys are unique, and every stored line is the strip of some raw line
    and, outside the File metadata section, non-blank. -/
theorem segStep_inv (st : List (String × List String) × Option String × List String)
    (rawLine : String)
    (h1 : (st.1.map Prod.fst).Nodup)
    (h2 : ∀ kv ∈ st.1, ∀ l ∈ kv.2,
      (∃ raw : String, l = pyStrip raw) ∧ (kv.1 ≠ "File" → l ≠ ""))
    (h3 : ∀ nm, st.2.1 = some nm → ∀ l ∈ st.2.2,
      (∃ raw : String, l = pyStrip raw) ∧ (nm ≠ "File" → l ≠ "")) :
    (((segStep st rawLine).1.map Prod.fst).Nodup) ∧
    (∀ kv ∈ (segStep st rawLine).1, ∀ l ∈ kv.2,
      (∃ raw : String, l = pyStrip raw) ∧ (kv.1 ≠ "File" → l ≠ "")) ∧
    (∀ nm, (segStep st rawLine).2.1 = some nm → ∀ l ∈ (segStep st rawLine).2.2,
      (∃ raw : String, l = pyStrip raw) ∧ (nm ≠ "File" → l ≠ "")) := by
  simp only [segStep]
  by_cases h0 : pyStrip rawLine = ""
  · rw [if_pos h0]
    exact ⟨h1, h2, h3⟩
  · rw [if_neg h0]
    by_cases hhdr : pyStartsWith (pyStrip rawLine) "$" = true
    · rw [if_pos hhdr]
      have hsecs : ((match st.2.1 with
            | some name => dictInsert st.1 name st.2.2
            | none => st.1).map Prod.fst).Nodup ∧
          ∀ kv ∈ (match st.2.1 with
            | some name => dictInsert st.1 name st.2.2
            | none => st.1), ∀ l ∈ kv.2,
            (∃ raw : String, l = pyStrip raw) ∧ (kv.1 ≠ "File" → l ≠ "") := by
        cases hcur : st.2.1 with
        | none => exact ⟨h1, h2⟩
        | some nm =>
          dsimp only
          refine ⟨dictInsert_nodupKeys nm st.2.2 h1, ?_⟩
          intro kv hkv l hl
          rcases mem_dictInsert _ _ _ _ hkv with hin | heq
          · exact h2 kv hin l hl
          · subst heq
            exact h3 nm hcur l hl
      by_cases hfile : pyStartsWith (pyStrip rawLine) "$ File " = true
      · rw [if_pos hfile]
        refine ⟨hsecs.1, hsecs.2, ?_⟩
        intro nm hnm l hl
        injection hnm with hnm
        subst hnm
        rcases List.mem_singleton.mp hl with rfl
        exact ⟨⟨pyDrop (pyStrip rawLine) 1, rfl⟩, fun hne => absurd rfl hne⟩
      · rw [if_neg hfile]
        refine ⟨hsecs.1, hsecs.2, ?_⟩
        intro nm hnm l hl
        exact absurd hl (List.not_mem_nil l)
    · rw [if_neg hhdr]
      cases hcur : st.2.1 with
      | none =>
        refine ⟨h1, h2, ?_⟩
        intro nm hnm
        rw [hcur] at hnm
        cases hnm
      | some nm =>
        refine ⟨h1, h2, ?_⟩
        intro nm' hnm' l hl
        injection hnm' with hnm'
        subst hnm'
        rcases List.mem_append.mp hl with hold | hnew
        · exact h3 nm hcur l hold
        · rcases List.mem_singleton.mp hnew with rfl
          exact ⟨⟨rawLine, rfl⟩, fun _ => h0⟩

/-- C8 (amended): the segmenter returns a mapping (unique block names)
    whose every stored line is whitespace-stripped (the strip of some raw
    line) and, outside the File metadata section, non-blank; redeclaring
    a block name overwrites the earlier content (last wins), as the
    concrete run shows.  A block may map to an EMPTY line list (a header
    immediately followed by another header), contrary to the original
    claim. -/
theorem c8_segmenter (text : String) :
    ((parse_sections_from_text text).map Prod.fst).Nodup ∧
    (∀ kv ∈ parse_sections_from_text text, ∀ l ∈ kv.2,
      (∃ raw : String, l = pyStrip raw) ∧ (kv.1 ≠ "File" → l ≠ "")) ∧
    parse_sections_from_text "$ A\nx\n$ B\ny\n$ A\nz" = [("A", ["z"]), ("B", ["y"])] := by
  have hInv := foldl_inv
    (fun st : List (String × List String) × Option String × List String =>
      ((st.1.map Prod.fst).Nodup) ∧
      (∀ kv ∈ st.1, ∀ l ∈ kv.2,
        (∃ raw : String, l = pyStrip raw) ∧ (kv.1 ≠ "File" → l ≠ "")) ∧
      (∀ nm, st.2.1 = some nm → ∀ l ∈ st.2.2,
        (∃ raw : String, l = pyStrip raw) ∧ (nm ≠ "File" → l ≠ "")))
    segStep
    (fun s a hs => segStep_inv s a hs.1 hs.2.1 hs.2.2)
    (pyLines text) ([], none, [])
    ⟨by simp, by simp, by intro nm h; cases h⟩
  have hres : parse_sections_from_text text =
      match ((pyLines text).foldl segStep ([], none, [])).2.1 with
      | some name => dictInsert ((pyLines text).foldl segStep ([], none, [])).1 name
          ((pyLines text).foldl segStep ([], none, [])).2.2
      | none => ((pyLines text).foldl segStep ([], none, [])).1 := rfl
  refine ⟨?_, ?_, by decide⟩
  · rw [hres]
    cases hfin : ((pyLines text).foldl segStep ([], none, [])).2.1 with
    | none => exact hInv.1
    | some nm => exact dictInsert_nodupKeys nm _ hInv.1
  · rw [hres]
    cases hfin : ((pyLines text).foldl segStep ([], none, [])).2.1 with
    | none => exact hInv.2.1
    | some nm =>
      intro kv hkv l hl
      rcases mem_dictInsert _ _ _ _ hkv with hin | heq
      · exact hInv.2.1 kv hin l hl
      · subst heq
        exact hInv.2.2 nm hfin l hl

/-- C8 counterexample to the original claim: a header directly followed
    by another header yields a section whose line list is empty, not
    non-empty. -/
theorem c8_empty_value_counterexample :
    parse_sections_from_text "$ A\n$ B\nl1" = [("A", []), ("B", ["l1"])] ∧
    ([] : List String) = [] := by
  exact ⟨by decide, rfl⟩

/-- Evaluation of the float parser on the token 0. -/
theorem pyFloat_zero_eval : pyFloat "0" = some 0 := by
  have h1 : (pyStrip "0").data = ['0'] := by decide
  rw [pyFloat, h1]
  simp [pyFloatChars, takeDigits, digitsToNat, ratValue]

/-- Evaluation of the float parser on the token 5. -/
theorem pyFloat_five_eval : pyFloat "5" = some 5 := by
  have h1 : (pyStrip "5").data = ['5'] := by decide
  rw [pyFloat, h1]
  simp [pyFloatChars, takeDigits, digitsToNat, ratValue]

/-- Joint parse of the old C9 snapshot line. -/
theorem c9_parse_joints_old : parse_joint_coordinates ["J1 0 0 0"] = [("J1", ⟨"J1", 0, 0, 0, none, none, none⟩)] := by
  have hsplit : pySplitWs "J1 0 0 0" = ["J1", "0", "0", "0"] := by decide
  have hsw : pyStartsWith "J1" "\"" = false := by decide
  simp [parse_joint_coordinates, hsplit, hsw, pyFloat_zero_eval, dictInsert]

/-- Joint parse of the new C9 snapshot line. -/
theorem c9_parse_joints_new : parse_joint_coordinates ["J1 0 0 5"] = [("J1", ⟨"J1", 0, 0, 5, none, none, none⟩)] := by
  have hsplit : pySplitWs "J1 0 0 5" = ["J1", "0", "0", "5"] := by decide
  have hsw : pyStartsWith "J1" "\"" = false := by decide
  simp [parse_joint_coordinates, hsplit, hsw, pyFloat_zero_eval, pyFloat_five_eval, dictInsert]

/-- Full parse of the old C9 snapshot. -/
theorem c9_parse_old : parse_et_file "a" c9TextA =
    { program_info := ⟨"ETABS", "Unknown", none, some "a"⟩,
      joints := [("J1", ⟨"J1", 0, 0, 0, none, none, none⟩)],
      raw_sections := [("JOINT COORDINATES", ["J1 0 0 0"])] } := by
  have hsec : parse_sections_from_text c9TextA = [("JOINT COORDINATES", ["J1 0 0 0"])] := by
    decide
  simp only [parse_et_file]
  rw [hsec]
  simp [alookup, c9_parse_joints_old]

/-- Full parse of the new C9 snapshot. -/
theorem c9_parse_new : parse_et_file "b" c9TextB =
    { program_info := ⟨"ETABS", "Unknown", none, some "b"⟩,
      joints := [("J1", ⟨"J1", 0, 0, 5, none, none, none⟩)],
      raw_sections := [("JOINT COORDINATES", ["J1 0 0 5"])] } := by
  have hsec : parse_sections_from_text c9TextB = [("JOINT COORDINATES", ["J1 0 0 5"])] := by
    decide
  simp only [parse_et_file]
  rw [hsec]
  simp [alookup, c9_parse_joints_new]

set_option maxHeartbeats 1000000 in
/-- The modified record of the joint collection in the C9 scenario. -/
theorem c9_joint_modified_eval : diff_dict_collection_modified "joint"
    [("J1", (⟨"J1", 0, 0, 0, none, none, none⟩ : Joint))]
    [("J1", (⟨"J1", 0, 0, 5, none, none, none⟩ : Joint))]
    defaultNumericTol id jointFields jointLoc =
    [⟨"joint", "J1", [⟨"z", PVal.vNum 0, PVal.vNum 5⟩], some { story := none }⟩] := by
  simp [diff_dict_collection_modified, alookup, compare_objects, compareFieldStep,
    jointFields, jointLoc, pvalEq, pvToNum, optStr, tolFor, defaultNumericTol,
    List.filterMap_cons, List.filterMap_nil]
  norm_num

set_option maxHeartbeats 1000000 in
/-- The modified record of the raw-section collection in the C9
    scenario. -/
theorem c9_raw_modified_eval : diff_raw_sections_modified [("JOINT COORDINATES", ["J1 0 0 0"])]
    [("JOINT COORDINATES", ["J1 0 0 5"])] =
    [⟨"raw_section", "JOINT COORDINATES",
      [⟨"lines_added", PVal.vNone, PVal.vStrList ["J1 0 0 5"]⟩,
       ⟨"lines_removed", PVal.vStrList ["J1 0 0 0"], PVal.vNone⟩], none⟩] := by
  simp [diff_raw_sections_modified, alookup, lineSetEq, dedupFirst]

/-- The full modified list of the C9 diff: the moved joint is reported
    once as a typed joint record and once as a raw-section line-set
    change. -/
theorem c9_modified_eval : (diff_models (parse_et_file "a" c9TextA) (parse_et_file "b" c9TextB)
    none).modified =
    [⟨"joint", "J1", [⟨"z", PVal.vNum 0, PVal.vNum 5⟩], some { story := none }⟩,
     ⟨"raw_section", "JOINT COORDINATES",
      [⟨"lines_added", PVal.vNone, PVal.vStrList ["J1 0 0 5"]⟩,
       ⟨"lines_removed", PVal.vStrList ["J1 0 0 0"], PVal.vNone⟩], none⟩] := by
  rw [c9_parse_old, c9_parse_new]
  simp only [diff_models, Option.getD_none]
  rw [c9_joint_modified_eval, c9_raw_modified_eval]
  simp [diff_dict_collection_modified]

/-- C9: parse_et_file stores every segmented block in raw_sections --
    including blocks parsed into typed collections -- so diff_models
    reports the moved joint of the C9 scenario both as a typed joint
    record and a second time as a raw_section modification. -/
theorem c9_raw_sections_double_report :
    (∀ path text, (parse_et_file path text).raw_sections = parse_sections_from_text text) ∧
    (∃ m ∈ (diff_models (parse_et_file "a" c9TextA) (parse_et_file "b" c9TextB)
        none).modified, m.object_type = "joint" ∧ m.key = "J1") ∧
    (∃ m ∈ (diff_models (parse_et_file "a" c9TextA) (parse_et_file "b" c9TextB)
        none).modified, m.object_type = "raw_section" ∧ m.key = "JOINT COORDINATES") := by
  refine ⟨fun path text => rfl, ?_, ?_⟩
  · rw [c9_modified_eval]
    exact ⟨_, List.mem_cons_self _ _, rfl, rfl⟩
  · rw [c9_modified_eval]
    exact ⟨_, List.mem_cons.mpr (Or.inr (List.mem_cons_self _ _)), rfl, rfl⟩

/-- C3 (amended): the aggregation never raises (it is a total function),
    and a modified frame record whose frame resolves in the new snapshot
    but carries no location data still contributes, with story None and
    no grid tags, forming a cluster with empty location fields; but a
    record whose frame does NOT resolve is dropped from the aggregation
    entirely, contrary to the original claim. -/
theorem c3_missing_location (new : EtabsModel) (mod : ObjectModified) :
    (mod.object_type = "frame" → alookup new.frames mod.key = none →
      swapContribution new mod = none) ∧
    (∀ ch frame, mod.object_type = "frame" →
      findSectionChange mod.changes = some ch →
      alookup new.frames mod.key = some frame →
      frame.story = none → frame.location = ({} : LocationInfo) →
      frame.object_type = none →
      swapContribution new mod = some ⟨clusterKey "frame" none ch.old ch.new, "frame",
        none, ch.old, ch.new, mod.key, none⟩) ∧
    aggregate_section_swaps c3DiffOk c3NewOk c3NewOk =
      [⟨"frame", none, PVal.vStr "W1", PVal.vStr "W2", 1, ["F1"], none⟩] := by
  refine ⟨?_, ?_, by decide⟩
  · intro h1 h2
    cases hf : findSectionChange mod.changes with
    | none => simp [swapContribution, h1, hf]
    | some ch => simp [swapContribution, h1, hf, h2]
  · intro ch frame h1 hch hfr hst hloc hot
    simp [swapContribution, h1, hch, hfr, effectiveStoryFrame, objectTypeOr,
      contributionGrids, optStrTruthy, pyOrStr, hst, hloc, hot]

/-- Witness for c3_missing_location: the location-free frame of c3NewOk
    contributes with story None and no grids. -/
theorem c3_missing_location_witness :
    swapContribution c3NewOk
        ⟨"frame", "F1", [⟨"section", PVal.vStr "W1", PVal.vStr "W2"⟩], none⟩ =
      some ⟨clusterKey "frame" none (PVal.vStr "W1") (PVal.vStr "W2"), "frame",
        none, PVal.vStr "W1", PVal.vStr "W2", "F1", none⟩ :=
  (c3_missing_location c3NewOk
      ⟨"frame", "F1", [⟨"section", PVal.vStr "W1", PVal.vStr "W2"⟩], none⟩).2.1
    ⟨"section", PVal.vStr "W1", PVal.vStr "W2"⟩ c3Frame rfl (by decide) rfl rfl rfl rfl

/-- C3 counterexample to the original claim: the frame-assignment record
    of c3Diff carries a section change, but its frame F9 resolves to
    nothing in the new snapshot, and the aggregated output is empty - the
    record is dropped, not kept with None location fields. -/
theorem c3_dropped_counterexample :
    aggregate_section_swaps c3Diff c3New c3New = [] ∧
    c3Diff.modified ≠ [] ∧
    (∀ m ∈ c3Diff.modified, findSectionChange m.changes ≠ none) := by
  refine ⟨by decide, by decide, by decide⟩

/-- Looking up the key just assigned finds the new value. -/
theorem alookup_dictInsert_self {α : Type} (l : List (String × α)) (k : String) (v : α) :
    alookup (dictInsert l k v) k = some v := by
  induction l with
  | nil => simp [dictInsert, alookup]
  | cons hd tl ih =>
    obtain ⟨k', w⟩ := hd
    by_cases h : k' = k
    · subst h
      simp [dictInsert, alookup]
    · simp [dictInsert, alookup, h, ih]

/-- Dict assignment leaves other keys untouched. -/
theorem alookup_dictInsert_ne {α : Type} (l : List (String × α)) (k k' : String) (v : α)
    (h : k' ≠ k) : alookup (dictInsert l k v) k' = alookup l k' := by
  have hne : ¬ (k = k') := fun hc => h hc.symm
  induction l with
  | nil => simp [dictInsert, alookup, hne]
  | cons hd tl ih =>
    obtain ⟨k₀, w⟩ := hd
    by_cases h0 : k₀ = k
    · subst h0
      simp [dictInsert, alookup, hne]
    · simp only [dictInsert, if_neg h0, alookup]
      by_cases h1 : k₀ = k'
      · simp [h1]
      · simp [h1, ih]

/-- Duplicate removal preserves membership (stated with an explicit
    length bound driving the recursion). -/
theorem mem_dedupFirst (x : String) : ∀ (n : Nat) (l : List String), l.length ≤ n →
    (x ∈ dedupFirst l ↔ x ∈ l)
  | n, [], _ => by simp [dedupFirst]
  | 0, a :: t, h => by simp at h
  | n + 1, a :: t, h => by
    rw [dedupFirst]
    have hlen : (t.filter (fun y => y ≠ a)).length ≤ n :=
      le_trans (List.length_filter_le _ _) (Nat.le_of_succ_le_succ h)
    rw [List.mem_cons, List.mem_cons, mem_dedupFirst x n _ hlen]
    by_cases hxa : x = a
    · simp [hxa]
    · simp [hxa, List.mem_filter]

/-- Duplicate removal yields a duplicate-free list. -/
theorem dedupFirst_nodup : ∀ (n : Nat) (l : List String), l.length ≤ n →
    (dedupFirst l).Nodup
  | n, [], _ => by simp [dedupFirst]
  | 0, a :: t, h => by simp at h
  | n + 1, a :: t, h => by
    rw [dedupFirst]
    have hlen : (t.filter (fun y => y ≠ a)).length ≤ n :=
      le_trans (List.length_filter_le _ _) (Nat.le_of_succ_le_succ h)
    refine List.nodup_cons.mpr ⟨?_, dedupFirst_nodup n _ hlen⟩
    intro hmem
    rw [mem_dedupFirst a _ _ hlen] at hmem
    have := (List.mem_filter.mp hmem).2
    simp at this

/-- Duplicate removal of a snoc: the appended element survives exactly
    when it is new. -/
theorem dedupFirst_append_singleton (x : String) : ∀ (n : Nat) (l : List String),
    l.length ≤ n →
    dedupFirst (l ++ [x]) = if x ∈ l then dedupFirst l else dedupFirst l ++ [x]
  | n, [], _ => by simp [dedupFirst]
  | 0, a :: t, h => by simp at h
  | n + 1, a :: t, h => by
    have hlen : (t.filter (fun y => y ≠ a)).length ≤ n :=
      le_trans (List.length_filter_le _ _) (Nat.le_of_succ_le_succ h)
    rw [List.cons_append, dedupFirst, dedupFirst]
    by_cases hxa : x = a
    · subst hxa
      simp only [List.filter_append]
      have : [x].filter (fun y => y ≠ x) = [] := by simp
      rw [this, List.append_nil, if_pos (List.mem_cons_self x t)]
    · simp only [List.filter_append]
      have : [x].filter (fun y => y ≠ a) = [x] := by simp [hxa]
      rw [this, dedupFirst_append_singleton x n _ hlen]
      by_cases hxt : x ∈ t.filter (fun y => y ≠ a)
      · rw [if_pos hxt, if_pos]
        exact List.mem_cons.mpr (Or.inr (List.mem_filter.mp hxt).1)
      · rw [if_neg hxt, if_neg, List.cons_append]
        intro hc
        rcases List.mem_cons.mp hc with hc | hc
        · exact hxa hc
        · exact hxt (List.mem_filter.mpr ⟨hc, by simp [hxa]⟩)

/-- Membership in a set insertion. -/
theorem mem_setInsert (x y : String) (l : List String) :
    x ∈ setInsert l y ↔ x ∈ l ∨ x = y := by
  by_cases h : y ∈ l
  · simp only [setInsert, if_pos h]
    constructor
    · exact Or.inl
    · rintro (hx | rfl)
      · exact hx
      · exact h
  · simp [setInsert, if_neg h]

/-- Membership in a fold of set insertions. -/
theorem foldl_setInsert_mem (x : String) : ∀ (ys acc : List String),
    (x ∈ List.foldl setInsert acc ys ↔ x ∈ acc ∨ x ∈ ys)
  | [], acc => by simp
  | y :: ys, acc => by
    rw [List.foldl_cons, foldl_setInsert_mem x ys (setInsert acc y), mem_setInsert]
    constructor
    · rintro ((h | rfl) | h)
      · exact Or.inl h
      · exact Or.inr (List.mem_cons_self _ _)
      · exact Or.inr (List.mem_cons.mpr (Or.inr h))
    · rintro (h | h)
      · exact Or.inl (Or.inl h)
      · rcases List.mem_cons.mp h with rfl | h
        · exact Or.inl (Or.inr rfl)
        · exact Or.inr h

/-- Set insertion preserves duplicate-freedom. -/
theorem setInsert_nodup {l : List String} (y : String) (h : l.Nodup) :
    (setInsert l y).Nodup := by
  by_cases hy : y ∈ l
  · simpa [setInsert, if_pos hy] using h
  · rw [setInsert, if_neg hy]
    simp [List.nodup_append, h, hy]

/-- A fold of set insertions preserves duplicate-freedom. -/
theorem foldl_setInsert_nodup : ∀ (ys acc : List String), acc.Nodup →
    (List.foldl setInsert acc ys).Nodup
  | [], acc, h => h
  | y :: ys, acc, h => by
    rw [List.foldl_cons]
    exact foldl_setInsert_nodup ys (setInsert acc y) (setInsert_nodup y h)

/-- The materialized grid list is sorted. -/
theorem sortStr_sorted (l : List String) : (sortStr l).Sorted (fun a b => a ≤ b) :=
  List.sorted_insertionSort _ l

/-- Sorting preserves membership. -/
theorem mem_sortStr (x : String) (l : List String) : x ∈ sortStr l ↔ x ∈ l :=
  (List.perm_insertionSort _ l).mem_iff

/-- Sorting preserves duplicate-freedom. -/
theorem sortStr_nodup {l : List String} (h : l.Nodup) : (sortStr l).Nodup :=
  ((List.perm_insertionSort _ l).nodup_iff).mpr h

/-- A fold that skips the failures of a partial extraction equals the
    fold over the extraction's filterMap. -/
theorem foldl_filterMap_match {α β σ : Type} (f : α → Option β) (g : σ → β → σ) :
    ∀ (l : List α) (s : σ),
    l.foldl (fun acc a => match f a with | none => acc | some b => g acc b) s =
      (l.filterMap f).foldl g s
  | [], s => rfl
  | a :: t, s => by
    rw [List.foldl_cons]
    cases hf : f a with
    | none =>
      simp only [List.filterMap_cons, hf]
      exact foldl_filterMap_match f g t s
    | some b =>
      simp only [List.filterMap_cons, hf]
      rw [List.foldl_cons]
      exact foldl_filterMap_match f g t (g s b)

/-- The five-element cap of an appended example list. -/
theorem take_five_append (l : List String) (a : String) :
    (l ++ [a]).take 5 = if l.length < 5 then l.take 5 ++ [a] else l.take 5 := by
  by_cases h : l.length < 5
  · rw [if_pos h, List.take_of_length_le (by simp; omega),
      List.take_of_length_le (le_of_lt h)]
  · rw [if_neg h, List.take_append_of_le_length (by omega)]

/-- The aggregation loop equals the fold of applyContribution over the
    extracted contributions. -/
theorem foldl_aggStep (new : EtabsModel) : ∀ (l : List ObjectModified)
    (s : List (String × SectionSwapCluster)),
    l.foldl (aggStep new) s =
      (l.filterMap (swapContribution new)).foldl applyContribution s
  | [], s => rfl
  | a :: t, s => by
    rw [List.foldl_cons]
    cases hf : swapContribution new a with
    | none =>
      simp only [aggStep, hf, List.filterMap_cons]
      exact foldl_aggStep new t s
    | some c =>
      simp only [aggStep, hf, List.filterMap_cons]
      rw [List.foldl_cons]
      exact foldl_aggStep new t (applyContribution s c)

/-- One aggregation step preserves the cluster-map invariant: the map's
    keys are the distinct contribution keys in first-seen order, and
    every cluster satisfies ClusterSpec for its key. -/
theorem applyContribution_step (c : SwapContribution)
    (acc : List (String × SectionSwapCluster)) (seen : List SwapContribution)
    (hkeys : acc.map Prod.fst = dedupFirst (seen.map (fun c => c.key)))
    (hspec : ∀ key cl, alookup acc key = some cl →
      ClusterSpec (contribsWithKey seen key) cl) :
    ((applyContribution acc c).map Prod.fst =
      dedupFirst ((seen ++ [c]).map (fun c => c.key))) ∧
    (∀ key cl, alookup (applyContribution acc c) key = some cl →
      ClusterSpec (contribsWithKey (seen ++ [c]) key) cl) := by
  have hmemiff : (c.key ∈ acc.map Prod.fst) ↔ c.key ∈ seen.map (fun c => c.key) := by
    rw [hkeys, mem_dedupFirst c.key (seen.map (fun c => c.key)).length _ le_rfl]
  constructor
  · show (dictInsert acc c.key _).map Prod.fst = _
    rw [dictInsert_keys, List.map_append, List.map_cons, List.map_nil,
      dedupFirst_append_singleton c.key (seen.map (fun c => c.key)).length _ le_rfl,
      hkeys]
    by_cases hmem : c.key ∈ seen.map (fun c => c.key)
    · rw [if_pos ((mem_dedupFirst c.key (seen.map (fun c => c.key)).length _
        le_rfl).mpr hmem), if_pos hmem]
    · rw [if_neg (fun hc => hmem ((mem_dedupFirst c.key
        (seen.map (fun c => c.key)).length _ le_rfl).mp hc)), if_neg hmem]
  · intro key cl hlk
    by_cases hkey : key = c.key
    · subst hkey
      rw [show applyContribution acc c = dictInsert acc c.key _ from rfl,
        alookup_dictInsert_self] at hlk
      injection hlk with hlk
      subst hlk
      have hsplit : contribsWithKey (seen ++ [c]) c.key =
          contribsWithKey seen c.key ++ [c] := by
        simp [contribsWithKey, List.filter_append]
      rw [hsplit]
      cases halook : alookup acc c.key with
      | none =>
        have hnomem : c.key ∉ seen.map (fun c => c.key) := by
          intro hc
          have h1 := hmemiff.mpr hc
          rw [← alookup_isSome, halook] at h1
          simp at h1
        have hempty : contribsWithKey seen c.key = [] := by
          rw [contribsWithKey, List.filter_eq_nil]
          intro a ha
          simp only [decide_eq_true_eq]
          intro hc
          exact hnomem (List.mem_map.mpr ⟨a, ha, hc⟩)
        rw [hempty, List.nil_append]
        refine ⟨c, [], rfl, rfl, rfl, rfl, rfl, rfl, rfl, ?_⟩
        cases hg : c.grids with
        | none => exact Or.inl ⟨rfl, by simp [List.filterMap_cons, hg]⟩
        | some g =>
          obtain ⟨gx, gy⟩ := g
          refine Or.inr ⟨setInsert [] gx, setInsert [] gy, rfl, ?_, ?_, ?_⟩
          · simp [List.filterMap_cons, hg]
          · simp [List.filterMap_cons, hg]
          · simp [List.filterMap_cons, hg]
      | some cl₀ =>
        obtain ⟨c₀, rest, hks, ho, hs, hold, hnew, hcount, hex, hgrid⟩ :=
          hspec c.key cl₀ halook
        refine ⟨c₀, rest ++ [c], by rw [hks, List.cons_append], ho, hs, hold, hnew,
          ?_, ?_, ?_⟩
        · show cl₀.count + 1 = (contribsWithKey seen c.key ++ [c]).length
          rw [hcount, List.length_append, List.length_cons, List.length_nil]
        · show (if cl₀.example_objects.length < 5 then
              cl₀.example_objects ++ [c.example_object]
            else cl₀.example_objects) = _
          rw [hex, List.map_append, List.map_cons, List.map_nil, take_five_append]
          have hiff : (((contribsWithKey seen c.key).map
              (fun c => c.example_object)).take 5).length < 5 ↔
              ((contribsWithKey seen c.key).map (fun c => c.example_object)).length < 5 := by
            rw [List.length_take]
            omega
          by_cases hL : ((contribsWithKey seen c.key).map
              (fun c => c.example_object)).length < 5
          · rw [if_pos (hiff.mpr hL), if_pos hL]
          · rw [if_neg (fun hc => hL (hiff.mp hc)), if_neg hL]
        · cases hg : c.grids with
          | none =>
            have hfm : (contribsWithKey seen c.key ++ [c]).filterMap (fun c => c.grids) =
                (contribsWithKey seen c.key).filterMap (fun c => c.grids) := by
              simp [List.filterMap_append, List.filterMap_cons, hg]
            rw [hfm]
            exact hgrid
          | some g =>
            obtain ⟨gx, gy⟩ := g
            have hfm : (contribsWithKey seen c.key ++ [c]).filterMap (fun c => c.grids) =
                (contribsWithKey seen c.key).filterMap (fun c => c.grids) ++ [(gx, gy)] := by
              simp [List.filterMap_append, List.filterMap_cons, hg]
            rcases hgrid with ⟨hnone, hempty⟩ | ⟨gx₀, gy₀, hsome, hne, hgx, hgy⟩
            · refine Or.inr ⟨setInsert [] gx, setInsert [] gy, ?_, ?_, ?_, ?_⟩
              · show (match cl₀.grid_region with
                  | none => some (GridRegion.mk (setInsert [] gx) (setInsert [] gy))
                  | some gr => some (GridRegion.mk (setInsert gr.grid_x gx)
                      (setInsert gr.grid_y gy))) = _
                rw [hnone]
              · rw [hfm, hempty]
                simp
              · rw [hfm, hempty]
                rfl
              · rw [hfm, hempty]
                rfl
            · refine Or.inr ⟨setInsert gx₀ gx, setInsert gy₀ gy, ?_, ?_, ?_, ?_⟩
              · show (match cl₀.grid_region with
                  | none => some (GridRegion.mk (setInsert [] gx) (setInsert [] gy))
                  | some gr => some (GridRegion.mk (setInsert gr.grid_x gx)
                      (setInsert gr.grid_y gy))) = _
                rw [hsome]
              · rw [hfm]
                simp
              · rw [hfm, List.map_append, List.foldl_append, ← hgx]
                rfl
              · rw [hfm, List.map_append, List.foldl_append, ← hgy]
                rfl
    · rw [show applyContribution acc c = dictInsert acc c.key _ from rfl,
        alookup_dictInsert_ne _ _ _ _ hkey] at hlk
      have hsame : contribsWithKey (seen ++ [c]) key = contribsWithKey seen key := by
        simp only [contribsWithKey, List.filter_append]
        have hne : ¬ (c.key = key) := fun hc => hkey hc.symm
        have : [c].filter (fun a => decide (a.key = key)) = [] := by
          simp [hne]
        rw [this, List.append_nil]
      rw [hsame]
      exact hspec key cl hlk

/-- The cluster-map invariant holds after folding any contribution
    list. -/
theorem applyContribution_fold : ∀ (cs seen : List SwapContribution)
    (acc : List (String × SectionSwapCluster)),
    (acc.map Prod.fst = dedupFirst (seen.map (fun c => c.key))) →
    (∀ key cl, alookup acc key = some cl → ClusterSpec (contribsWithKey seen key) cl) →
    ((cs.foldl applyContribution acc).map Prod.fst =
      dedupFirst ((seen ++ cs).map (fun c => c.key))) ∧
    (∀ key cl, alookup (cs.foldl applyContribution acc) key = some cl →
      ClusterSpec (contribsWithKey (seen ++ cs) key) cl)
  | [], seen, acc, h1, h2 => by
    rw [List.foldl_nil, List.append_nil]
    exact ⟨h1, h2⟩
  | c :: cs, seen, acc, h1, h2 => by
    rw [List.foldl_cons]
    have hstep := applyContribution_step c acc seen h1 h2
    have hrec := applyContribution_fold cs (seen ++ [c]) (applyContribution acc c)
      hstep.1 hstep.2
    rw [List.append_assoc, List.singleton_append] at hrec
    exact hrec

/-- C4 (amended): all contributions sharing a cluster key merge into one
    cluster (the output has exactly one cluster per distinct key): its
    identity fields come from the first contribution, its count is the
    number of contributing records, its examples are the first five
    contributors, and its grid region - sorted, duplicate-free per axis -
    is the union of the grid tags of exactly those members carrying
    truthy grid tags on BOTH axes; it is None when no member does, even
    if members carry a tag on one axis, contrary to the original
    claim. -/
theorem c4_clustering (d : RawDiff) (old new : EtabsModel) (k : String)
    (hk : k ∈ (swapContributions d new).map (fun c => c.key)) :
    (∃ cl ∈ aggregate_section_swaps d old new,
      (∃ c₀ rest, contribsWithKey (swapContributions d new) k = c₀ :: rest ∧
        cl.object_type = c₀.object_type ∧ cl.story = c₀.story ∧
        cl.old_section = c₀.old_section ∧ cl.new_section = c₀.new_section) ∧
      cl.count = (contribsWithKey (swapContributions d new) k).length ∧
      cl.example_objects = ((contribsWithKey (swapContributions d new) k).map
        (fun c => c.example_object)).take 5 ∧
      ((cl.grid_region = none ↔
        (contribsWithKey (swapContributions d new) k).filterMap (fun c => c.grids) = []) ∧
       ∀ gr, cl.grid_region = some gr →
         gr.grid_x.Sorted (fun a b => a ≤ b) ∧ gr.grid_x.Nodup ∧
         (∀ x, x ∈ gr.grid_x ↔
            x ∈ ((contribsWithKey (swapContributions d new) k).filterMap
              (fun c => c.grids)).map Prod.fst) ∧
         gr.grid_y.Sorted (fun a b => a ≤ b) ∧ gr.grid_y.Nodup ∧
         (∀ y, y ∈ gr.grid_y ↔
            y ∈ ((contribsWithKey (swapContributions d new) k).filterMap
              (fun c => c.grids)).map Prod.snd))) ∧
    (aggregate_section_swaps d old new).length =
      (dedupFirst ((swapContributions d new).map (fun c => c.key))).length := by
  have hagg : aggregate_section_swaps d old new =
      ((swapContributions d new).foldl applyContribution []).map
        (fun kv => materializeCluster kv.2) := by
    simp only [aggregate_section_swaps, swapContributions]
    rw [foldl_aggStep]
  have hfold := applyContribution_fold (swapContributions d new) [] []
    (by simp [dedupFirst])
    (by intro key cl h; simp [alookup] at h)
  rw [List.nil_append] at hfold
  constructor
  · have hkd : k ∈ ((swapContributions d new).foldl applyContribution []).map Prod.fst := by
      rw [hfold.1]
      exact (mem_dedupFirst k ((swapContributions d new).map (fun c => c.key)).length _
        le_rfl).mpr hk
    rcases List.mem_map.mp hkd with ⟨kv, hkv, hkvk⟩
    have hlk : alookup ((swapContributions d new).foldl applyContribution []) kv.1 =
        some kv.2 := by
      refine alookup_of_mem_nodup hkv ?_
      rw [hfold.1]
      exact dedupFirst_nodup ((swapContributions d new).map (fun c => c.key)).length _
        le_rfl
    have hcs := hfold.2 kv.1 kv.2 hlk
    obtain ⟨c₀, rest, hks, ho, hs, hold, hnew, hcount, hex, hgrid⟩ := hcs
    rw [← hkvk]
    refine ⟨materializeCluster kv.2, ?_, ?_⟩
    · rw [hagg]
      exact List.mem_map.mpr ⟨kv, hkv, rfl⟩
    · cases hgr : kv.2.grid_region with
      | none =>
        have hmc : materializeCluster kv.2 = kv.2 := by
          rw [materializeCluster, hgr]
        rw [hmc]
        have hgs : (contribsWithKey (swapContributions d new) kv.1).filterMap
            (fun c => c.grids) = [] := by
          rcases hgrid with ⟨_, hemp⟩ | ⟨gx, gy, hsome, _, _, _⟩
          · exact hemp
          · rw [hgr] at hsome
            cases hsome
        refine ⟨⟨c₀, rest, hks, ho, hs, hold, hnew⟩, hcount, hex, ?_, ?_⟩
        · rw [hgr, hgs]
          simp
        · intro gr hgr'
          rw [hgr] at hgr'
          cases hgr'
      | some gr₀ =>
        rcases hgrid with ⟨hnone, _⟩ | ⟨gx, gy, hsome, hne, hgx, hgy⟩
        · rw [hgr] at hnone
          cases hnone
        · rw [hgr] at hsome
          injection hsome with hsome
          subst hsome
          have hmc : materializeCluster kv.2 =
              { kv.2 with grid_region := (some ⟨sortStr gx, sortStr gy⟩) } := by
            rw [materializeCluster, hgr]
          rw [hmc]
          refine ⟨⟨c₀, rest, hks, ho, hs, hold, hnew⟩, hcount, hex, ?_, ?_⟩
          · simp only []
            constructor
            · intro hc
              cases hc
            · intro hc
              exact absurd hc hne
          · intro gr hgr'
            injection hgr' with hgr'
            subst hgr'
            refine ⟨sortStr_sorted _, sortStr_nodup ?_, ?_, sortStr_sorted _,
              sortStr_nodup ?_, ?_⟩
            · rw [hgx]
              exact foldl_setInsert_nodup _ [] List.nodup_nil
            · intro x
              rw [mem_sortStr, hgx, foldl_setInsert_mem]
              simp
            · rw [hgy]
              exact foldl_setInsert_nodup _ [] List.nodup_nil
            · intro y
              rw [mem_sortStr, hgy, foldl_setInsert_mem]
              simp
  · rw [hagg, List.length_map, ← hfold.1, List.length_map]

/-- C4 counterexample to the original claim: the single contributing
    frame carries grid tag A on the X axis (and none on Y), yet the
    cluster's grid region is None - one-axis tags are never
    accumulated. -/
theorem c4_one_axis_counterexample :
    aggregate_section_swaps c4Diff c4New c4New =
      [⟨"beam", none, PVal.vStr "W1", PVal.vStr "W2", 1, ["F2"], none⟩] ∧
    c4Frame.location.grid_x = some "A" := by
  exact ⟨by decide, rfl⟩

/-- Witness for c4_clustering: the two beams of c4wDiff merge into one
    cluster with count 2 and both examples. -/
theorem c4_clustering_witness :
    ("beam:L1:W1:W2" ∈ (swapContributions c4wDiff c4wNew).map (fun c => c.key)) ∧
    ∃ cl ∈ aggregate_section_swaps c4wDiff c4wNew c4wNew,
      cl.count = 2 ∧ cl.example_objects = ["FA", "FB"] := by
  have hk : "beam:L1:W1:W2" ∈ (swapContributions c4wDiff c4wNew).map
      (fun c => c.key) := by decide
  have h := c4_clustering c4wDiff c4wNew c4wNew "beam:L1:W1:W2" hk
  obtain ⟨⟨cl, hcl, _, hcount, hex, _⟩, _⟩ := h
  refine ⟨hk, cl, hcl, ?_, ?_⟩
  · rw [hcount]
    decide
  · rw [hex]
    decide
